import Mathlib

/-!
# Verification of the pixAV pipeline core

A shallow embedding of the pixAV media-pipeline core (account scheduler,
task repository, orchestrator tick, crawl ingester, stage failure handling,
orphan GC, CDN resolver and delayed DLQ replay), with theorems settling the
specification claims against it.

Timestamps are modelled as integers (seconds); SQL `now()` becomes an
explicit `now : Int` argument.  Nullable columns become `Option` fields.
Database tables become Lean lists of row structures, and each SQL statement
becomes a pure function on those lists, translated clause by clause from
the Python/SQL source in `src/pixav`.
-/

set_option maxRecDepth 10000

namespace PixAV

/-! ## Shared enums (`pixav/shared/enums.py`) -/

/-- `TaskState` — lifecycle states for a pipeline task. -/
inductive TaskState where
  | pending
  | downloading
  | remuxing
  | uploading
  | verifying
  | complete
  | failed
deriving DecidableEq, Repr

/-- `AccountStatus` — account health states. -/
inductive AccountStatus where
  | active
  | cooldown
  | banned
  | unverified
deriving DecidableEq, Repr

/-- `VideoStatus` — video availability states. -/
inductive VideoStatus where
  | discovered
  | downloading
  | downloaded
  | uploading
  | available
  | expired
  | failed
deriving DecidableEq, Repr

/-! ## Accounts (`accounts` table, `maxwell_core/scheduler.py`,
`shared/repository.py` `AccountRepository`) -/

/-- A row of the `accounts` table (the columns used by the scheduler and
`AccountRepository`). -/
structure Account where
  id : Nat
  status : AccountStatus
  lastUsedAt : Option Int
  cooldownUntil : Option Int
  leaseExpiresAt : Option Int
  dailyUploadedBytes : Int
  dailyQuotaBytes : Int
  quotaResetAt : Int
deriving DecidableEq, Repr

/-- Postgres `date_trunc('day', now()) + interval '1 day'` with a day of
86400 seconds. -/
def nextDayStart (now : Int) : Int :=
  now - now % 86400 + 86400

/-- SQL `col IS NULL OR col <= now` for a nullable timestamp column. -/
def nullOrPast (col : Option Int) (now : Int) : Bool :=
  match col with
  | none => true
  | some t => t ≤ now

/-- The reactivation `UPDATE` that opens `LruAccountScheduler.next_account`
(scheduler.py lines 37-51), applied to one row: a `cooldown` row whose
`cooldown_until` is non-null and `<= now` becomes `active` with cleared
cooldown/lease, zeroed usage and the quota reset pushed to the next day. -/
def reactivateRow (now : Int) (a : Account) : Account :=
  if a.status = .cooldown ∧ (∃ c, a.cooldownUntil = some c ∧ c ≤ now) then
    { a with
      status := .active
      cooldownUntil := none
      leaseExpiresAt := none
      dailyUploadedBytes := 0
      quotaResetAt := nextDayStart now }
  else a

/-- The `WHERE` clause of the candidate CTE in `next_account`
(scheduler.py lines 56-64). -/
def isCandidate (now : Int) (a : Account) : Bool :=
  a.status = .active
    && nullOrPast a.cooldownUntil now
    && nullOrPast a.leaseExpiresAt now
    && (a.quotaResetAt ≤ now || a.dailyUploadedBytes < a.dailyQuotaBytes)

/-- `ORDER BY last_used_at ASC NULLS FIRST`, as a strict order on the
nullable `last_used_at` values. -/
def lruLt (x y : Option Int) : Bool :=
  match x, y with
  | none, none => false
  | none, some _ => true
  | some _, none => false
  | some a, some b => a < b

/-- The reflexive companion of `lruLt`. -/
def lruLe (x y : Option Int) : Bool :=
  match x, y with
  | none, _ => true
  | some _, none => false
  | some a, some b => a ≤ b

/-- `ORDER BY last_used_at ASC NULLS FIRST ... LIMIT 1`: the first row of
the list that is minimal for `lruLt` (Postgres leaves the order among ties
unspecified; the embedding keeps the earliest such row). -/
def selectLru : List Account → Option Account
  | [] => none
  | a :: rest =>
    match selectLru rest with
    | none => some a
    | some b => if lruLt b.lastUsedAt a.lastUsedAt then some b else some a

/-- `SET lease_expires_at = now + lease_seconds` on the row(s) with the
candidate's id (scheduler.py lines 69-73). -/
def stampLease (leaseSeconds now : Int) (aid : Nat) (accounts : List Account) :
    List Account :=
  accounts.map fun a =>
    if a.id = aid then { a with leaseExpiresAt := some (now + leaseSeconds) } else a

/-- The error message raised by `next_account` when the candidate query
returns no row. -/
def noActiveAccountsMsg : String := "no active accounts available for scheduling"

/-- `LruAccountScheduler.next_account` (scheduler.py lines 28-83): run the
reactivation `UPDATE`, select the LRU candidate, stamp its lease and return
its id; the reactivation persists even when the selection fails. -/
def nextAccount (leaseSeconds now : Int) (accounts : List Account) :
    Except String Nat × List Account :=
  let reactivated := accounts.map (reactivateRow now)
  match selectLru (reactivated.filter (isCandidate now)) with
  | none => (.error noActiveAccountsMsg, reactivated)
  | some a => (.ok a.id, stampLease leaseSeconds now a.id reactivated)

/-- `LruAccountScheduler.mark_used` (scheduler.py lines 85-99). -/
def markUsed (now : Int) (aid : Nat) (accounts : List Account) : List Account :=
  accounts.map fun a =>
    if a.id = aid then { a with lastUsedAt := some now, leaseExpiresAt := none } else a

/-- `AccountRepository.apply_upload_usage` (repository.py lines 240-279),
applied to one row.  Every `CASE` expression reads the pre-update column
values, as SQL `UPDATE ... SET` does. -/
def applyUploadUsageRow (now : Int) (uploadedBytes : Int) (a : Account) : Account :=
  let safeBytes := max uploadedBytes 0
  let newDaily := if a.quotaResetAt ≤ now then safeBytes
                  else a.dailyUploadedBytes + safeBytes
  { a with
    dailyUploadedBytes := newDaily
    quotaResetAt := if a.quotaResetAt ≤ now then nextDayStart now else a.quotaResetAt
    lastUsedAt := some now
    status := if newDaily ≥ a.dailyQuotaBytes then .cooldown else a.status
    cooldownUntil := if newDaily ≥ a.dailyQuotaBytes then some a.quotaResetAt else none
    leaseExpiresAt := none }

/-- `apply_upload_usage` as the `UPDATE ... WHERE id = $1` over the table. -/
def applyUploadUsage (now : Int) (aid : Nat) (uploadedBytes : Int)
    (accounts : List Account) : List Account :=
  accounts.map fun a => if a.id = aid then applyUploadUsageRow now uploadedBytes a else a

instance : DecidableEq (Except String Nat) := fun a b =>
  match a, b with
  | .error e₁, .error e₂ =>
    if h : e₁ = e₂ then .isTrue (by rw [h]) else .isFalse (by simp [h])
  | .ok v₁, .ok v₂ =>
    if h : v₁ = v₂ then .isTrue (by rw [h]) else .isFalse (by simp [h])
  | .error _, .ok _ => .isFalse (by simp)
  | .ok _, .error _ => .isFalse (by simp)

/-! ### Concrete account pools used by the closed theorems -/

/-- An account in `cooldown` whose `cooldown_until` (5) has already passed
at `now = 10`. -/
def cooldownExpiredAccount : Account :=
  { id := 1, status := .cooldown, lastUsedAt := some 3, cooldownUntil := some 5,
    leaseExpiresAt := none, dailyUploadedBytes := 0, dailyQuotaBytes := 100,
    quotaResetAt := 86400 }

/-- A two-account active pool: id 4 was last used at 50, id 7 never. -/
def lruPool : List Account :=
  [{ id := 4, status := .active, lastUsedAt := some 50, cooldownUntil := none,
     leaseExpiresAt := none, dailyUploadedBytes := 0, dailyQuotaBytes := 100,
     quotaResetAt := 86400 },
   { id := 7, status := .active, lastUsedAt := none, cooldownUntil := none,
     leaseExpiresAt := none, dailyUploadedBytes := 0, dailyQuotaBytes := 100,
     quotaResetAt := 86400 }]

/-- The §8 scenario-4 account: `daily_quota_bytes = 100`,
`daily_uploaded_bytes = 90`, quota day not yet rolled at `now = 1000`. -/
def quotaNearAccount : Account :=
  { id := 1, status := .active, lastUsedAt := none, cooldownUntil := none,
    leaseExpiresAt := none, dailyUploadedBytes := 90, dailyQuotaBytes := 100,
    quotaResetAt := 86400 }

/-! ## The pydantic `Video` model and `VideoRepository.insert`
(`shared/models.py` lines 31-45, `shared/repository.py` lines 53-88) -/

/-- A Python value as it appears in model fields and table columns. -/
inductive PyVal where
  | vNat (n : Nat)
  | vStr (s : String)
  | vOptStr (o : Option String)
  | vStatus (s : VideoStatus)
  | vInt (t : Int)
  | vOptInt (o : Option Int)
deriving DecidableEq, Repr

/-- The frozen pydantic `Video` model exactly as `shared/models.py` lines
31-45 declares it: `id, title, magnet_uri, local_path, share_url, cdn_url,
status, metadata_json, created_at, updated_at` and nothing else. -/
structure Video where
  id : Nat
  title : String
  magnetUri : Option String
  localPath : Option String
  shareUrl : Option String
  cdnUrl : Option String
  status : VideoStatus
  metadataJson : Option String
  createdAt : Int
  updatedAt : Option Int
deriving DecidableEq, Repr

/-- Python attribute access on a `Video` instance: the declared fields
resolve to their values; any other name (the model declares no
`info_hash`, `quality_score`, `tags` or `embedding` field, and pydantic's
default `extra` policy stores no extra attributes) yields `none`,
i.e. `AttributeError`. -/
def Video.getattr (v : Video) : String → Option PyVal
  | "id" => some (.vNat v.id)
  | "title" => some (.vStr v.title)
  | "magnet_uri" => some (.vOptStr v.magnetUri)
  | "local_path" => some (.vOptStr v.localPath)
  | "share_url" => some (.vOptStr v.shareUrl)
  | "cdn_url" => some (.vOptStr v.cdnUrl)
  | "status" => some (.vStatus v.status)
  | "metadata_json" => some (.vOptStr v.metadataJson)
  | "created_at" => some (.vInt v.createdAt)
  | "updated_at" => some (.vOptInt v.updatedAt)
  | _ => none

/-- Errors surfaced by `VideoRepository.insert`. -/
inductive PyError where
  | attributeError
  | uniqueViolation
deriving DecidableEq, Repr

/-- Evaluate `video.<name>`, raising `AttributeError` for a missing
attribute. -/
def pyAttr (v : Video) (name : String) : Except PyError PyVal :=
  match v.getattr name with
  | some x => .ok x
  | none => .error .attributeError

/-- A `videos` table row, as the column/value pairs written by the
`INSERT`. -/
abbrev VideoTableRow : Type := List (String × PyVal)

/-- Modelled from the spec: the `videos` table schema lives in the
migrations directory, which is not under `src/`; per the spec `info_hash`
is the unique primary dedup key, so an `INSERT` whose `info_hash` equals
an existing row's is rejected. -/
def infoHashConflict (db : List VideoTableRow) (ihVal : PyVal) : Bool :=
  db.any fun row => row.lookup "info_hash" == some ihVal

/-- `VideoRepository.insert` (repository.py lines 63-88): evaluate the
`INSERT` arguments `video.id, …, video.metadata_json, video.info_hash,
video.quality_score, video.tags, video.embedding, video.created_at,
video.updated_at` in order (each a Python attribute access on the model),
then write the row, rejecting a duplicate `info_hash`. -/
def videoInsert (db : List VideoTableRow) (v : Video) :
    Except PyError (List VideoTableRow) := do
  let idV ← pyAttr v "id"
  let titleV ← pyAttr v "title"
  let magnetV ← pyAttr v "magnet_uri"
  let localV ← pyAttr v "local_path"
  let shareV ← pyAttr v "share_url"
  let cdnV ← pyAttr v "cdn_url"
  let statusV ← pyAttr v "status"
  let metaV ← pyAttr v "metadata_json"
  let infoHashV ← pyAttr v "info_hash"
  let qualityV ← pyAttr v "quality_score"
  let tagsV ← pyAttr v "tags"
  let embeddingV ← pyAttr v "embedding"
  let createdV ← pyAttr v "created_at"
  let updatedV ← pyAttr v "updated_at"
  if infoHashConflict db infoHashV then
    .error .uniqueViolation
  else
    .ok (db ++ [[("id", idV), ("title", titleV), ("magnet_uri", magnetV),
      ("local_path", localV), ("share_url", shareV), ("cdn_url", cdnV),
      ("status", statusV), ("metadata_json", metaV),
      ("info_hash", infoHashV), ("quality_score", qualityV),
      ("tags", tagsV), ("embedding", embeddingV),
      ("created_at", createdV), ("updated_at", updatedV)]])

/-- `VideoRepository.find_by_info_hash` (repository.py lines 53-61). -/
def findByInfoHash (db : List VideoTableRow) (ihVal : PyVal) :
    Option VideoTableRow :=
  db.find? fun row => row.lookup "info_hash" == some ihVal

/-! ## Tasks (`tasks` table, `shared/repository.py` `TaskRepository`) -/

/-- The pydantic `Task` model / `tasks` table row (`shared/models.py`
lines 48-64). -/
structure Task where
  id : Nat
  videoId : Nat
  accountId : Option Nat
  state : TaskState
  queueName : String
  localPath : Option String
  shareUrl : Option String
  retries : Nat
  maxRetries : Nat
  errorMessage : Option String
  createdAt : Int
  updatedAt : Option Int
deriving DecidableEq, Repr

/-- `TaskRepository.update_state` (repository.py lines 321-339). -/
def updateState (now : Int) (tid : Nat) (st : TaskState) (msg : Option String)
    (tasks : List Task) : List Task :=
  tasks.map fun t =>
    if t.id = tid then { t with state := st, updatedAt := some now, errorMessage := msg }
    else t

/-- `TaskRepository.set_retry` (repository.py lines 341-367). -/
def setRetry (now : Int) (tid : Nat) (retries : Nat) (st : TaskState)
    (msg : Option String) (tasks : List Task) : List Task :=
  tasks.map fun t =>
    if t.id = tid then
      { t with retries := retries, state := st, errorMessage := msg, updatedAt := some now }
    else t

/-- `TaskRepository.assign_account` (repository.py lines 395-411). -/
def assignAccount (now : Int) (tid : Nat) (aid : Nat) (tasks : List Task) :
    List Task :=
  tasks.map fun t =>
    if t.id = tid then { t with accountId := some aid, updatedAt := some now } else t

/-- `TaskRepository.count_by_state` (repository.py lines 413-419). -/
def countByState (st : TaskState) (tasks : List Task) : Nat :=
  (tasks.filter fun t => t.state == st).length

/-- Stable insertion into a list ordered by `created_at` ascending. -/
def insertByCreatedAt (t : Task) : List Task → List Task
  | [] => [t]
  | u :: us =>
    if u.createdAt ≤ t.createdAt then u :: insertByCreatedAt t us
    else t :: u :: us

/-- `ORDER BY created_at ASC` as a stable insertion sort. -/
def sortByCreatedAt : List Task → List Task
  | [] => []
  | t :: rest => insertByCreatedAt t (sortByCreatedAt rest)

/-- `TaskRepository.list_pending` (repository.py lines 421-433):
pending tasks ordered by `created_at` ascending, first `limit` rows. -/
def listPending (limit : Nat) (tasks : List Task) : List Task :=
  ((sortByCreatedAt (tasks.filter fun t => t.state == TaskState.pending)).take limit)

/-- The open (non-terminal) task states of
`TaskRepository.has_open_task` (repository.py lines 441-447). -/
def openStates : List TaskState :=
  [.pending, .downloading, .remuxing, .uploading, .verifying]

/-- `TaskRepository.has_open_task` (repository.py lines 435-460). -/
def hasOpenTask (vid : Nat) (tasks : List Task) : Bool :=
  tasks.any fun t => t.videoId == vid && openStates.contains t.state

/-- Number of open tasks a video has (the §8 invariant's count). -/
def openCount (vid : Nat) (tasks : List Task) : Nat :=
  (tasks.filter fun t => t.videoId == vid && openStates.contains t.state).length

/-! ## Orphan GC (`maxwell_core/gc.py`) -/

/-- `_TRANSIENT_STATES` (gc.py lines 18-23). -/
def transientStates : List TaskState :=
  [.downloading, .remuxing, .uploading, .verifying]

/-- The error message written by `OrphanTaskCleaner.cleanup`
(gc.py line 55). -/
def orphanCleanupMsg : String := "orphan cleanup: stuck in transient state"

/-- `_DEFAULT_ORPHAN_AGE` (gc.py line 15), in seconds. -/
def defaultOrphanMaxAge : Int := 7200

/-- The `WHERE` clause of the GC `UPDATE` (gc.py lines 57-58): transient
state and `updated_at < now() - max_age` (a `NULL` `updated_at` never
matches). -/
def isOrphan (now maxAge : Int) (t : Task) : Bool :=
  transientStates.contains t.state
    && (match t.updatedAt with
        | some u => decide (u < now - maxAge)
        | none => false)

/-- `OrphanTaskCleaner.cleanup` (gc.py lines 43-71): mark every orphan
`failed` with the orphan message and a bumped `updated_at`, and return the
number of rows updated. -/
def gcCleanup (now maxAge : Int) (tasks : List Task) : List Task × Nat :=
  (tasks.map fun t =>
      if isOrphan now maxAge t then
        { t with state := .failed, errorMessage := some orphanCleanupMsg,
                 updatedAt := some now }
      else t,
   (tasks.filter (isOrphan now maxAge)).length)

/-- A task stuck in `downloading` since time 0. -/
def orphanSampleTask : Task :=
  { id := 1, videoId := 1, accountId := none, state := .downloading,
    queueName := "pixav:download", localPath := none, shareUrl := none,
    retries := 0, maxRetries := 3, errorMessage := none, createdAt := 0,
    updatedAt := some 0 }

/-- The `Video` model value the repository's own test
`tests/shared/test_repository.py::test_insert_calls_fetchrow` builds and
passes to `VideoRepository.insert`. -/
def sampleInsertVideo : Video :=
  { id := 10, title := "Test Video", magnetUri := some "magnet:?xt=urn:btih:abc",
    localPath := none, shareUrl := none, cdnUrl := none, status := .discovered,
    metadataJson := none, createdAt := 0, updatedAt := none }

/-! ## Crawl ingester (`maxwell_core/worker.py` `ingest_crawl_queue`) -/

/-- A discovery-queue payload; `videoId = none` models a payload whose
`video_id` value is not a string or does not parse as a UUID
(`_parse_uuid`, worker.py lines 26-32). -/
structure CrawlPayload where
  videoId : Option Nat
deriving DecidableEq, Repr

/-- The state the ingester reads and writes: the `videos` table (as the
set of existing ids, all `find_by_id` needs), the `tasks` table, the crawl
queue and the id supply for inserted task rows. -/
structure IngestState where
  videoIds : List Nat
  tasks : List Task
  crawlQueue : List CrawlPayload
  nextTaskId : Nat
deriving DecidableEq, Repr

/-- The `Task(video_id=…, state=PENDING, queue_name=…)` row built at
worker.py lines 64-70, with the pydantic defaults of `shared/models.py`
(`retries = 0`, `max_retries = 3`, `created_at = now`). -/
def newPendingTask (tid vid : Nat) (queueName : String) (now : Int) : Task :=
  { id := tid, videoId := vid, accountId := none, state := .pending,
    queueName := queueName, localPath := none, shareUrl := none,
    retries := 0, maxRetries := 3, errorMessage := none, createdAt := now,
    updatedAt := none }

/-- The per-payload body of `ingest_crawl_queue` (worker.py lines 50-71):
skip on unparseable id, skip on missing video, skip when the video already
has an open task, otherwise insert one pending task on the download
queue.  Returns the updated state and the number of tasks created (0 or
1). -/
def ingestOne (downloadQueueName : String) (now : Int) (st : IngestState)
    (p : CrawlPayload) : IngestState × Nat :=
  match p.videoId with
  | none => (st, 0)
  | some vid =>
    if st.videoIds.contains vid then
      if hasOpenTask vid st.tasks then (st, 0)
      else
        ({ st with
            tasks := st.tasks ++ [newPendingTask st.nextTaskId vid downloadQueueName now],
            nextTaskId := st.nextTaskId + 1 }, 1)
    else (st, 0)

/-- `ingest_crawl_queue` (worker.py lines 35-73): pop and process up to
`batchSize` payloads, stopping early when the queue is empty. -/
def ingestCrawlQueue (downloadQueueName : String) (now : Int) :
    Nat → IngestState → IngestState × Nat
  | 0, st => (st, 0)
  | batch + 1, st =>
    match st.crawlQueue with
    | [] => (st, 0)
    | p :: rest =>
      let r₁ := ingestOne downloadQueueName now { st with crawlQueue := rest } p
      let r₂ := ingestCrawlQueue downloadQueueName now batch r₁.1
      (r₂.1, r₁.2 + r₂.2)

/-- An ingester state with one known video (id 5), no tasks and an empty
crawl queue. -/
def ingestSampleState : IngestState :=
  { videoIds := [5], tasks := [], crawlQueue := [], nextTaskId := 0 }

/-! ## Queue payloads (`shared/queue.py` JSON payloads) -/

/-- A JSON scalar as used in queue payloads. -/
inductive PVal where
  | s (v : String)
  | n (v : Nat)
deriving DecidableEq, Repr

/-- A JSON-object queue payload as ordered key/value pairs. -/
abbrev Payload := List (String × PVal)

/-! ## Stage failure handling (`media_loader/service.py`
`_handle_processing_error`, `pixel_injector/worker.py` `_persist_failure`) -/

/-- Character-list prefix test (Python `str.startswith` on decoded
text). -/
def charsPrefix : List Char → List Char → Bool
  | [], _ => true
  | _ :: _, [] => false
  | a :: as, b :: bs => a == b && charsPrefix as bs

/-- Character-list substring test (Python `token in s`). -/
def charsContain (hay needle : List Char) : Bool :=
  match hay with
  | [] => needle.isEmpty
  | _ :: rest => charsPrefix needle hay || charsContain rest needle

/-- `_is_retryable_failure` (pixel_injector/worker.py lines 76-82): a
failure is retryable unless its lowercased message contains
`"local_path is required"` or `"local_path is missing"`. -/
def isRetryableFailure (msg : String) : Bool :=
  let lowered := msg.data.map Char.toLower
  !(charsContain lowered "local_path is required".data
    || charsContain lowered "local_path is missing".data)

/-- What a stage writes on failure: the task-row write, the video status
write, and the payloads pushed to the retry queue and the DLQ. -/
inductive TaskWrite where
  | setRetry (retries : Nat) (state : TaskState) (errorMessage : String)
  | updateTaskState (state : TaskState) (errorMessage : String)
deriving DecidableEq, Repr

structure FailureOutcome where
  taskWrite : TaskWrite
  videoStatus : VideoStatus
  retryPushed : Option Payload
  dlqPushed : Option Payload
deriving DecidableEq, Repr

/-- `MediaLoaderService._handle_processing_error` (media_loader/service.py
lines 175-219), with the retry and DLQ queues configured as the worker
wires them (media_loader/worker.py lines 57-68).  `errorMsg` stands for
the Python `f"{type(exc).__name__}: {exc}"` string. -/
def mediaLoaderHandleProcessingError (task : Task) (errorMsg : String) :
    FailureOutcome :=
  let nextRetry := task.retries + 1
  if nextRetry ≤ task.maxRetries then
    { taskWrite := .setRetry nextRetry .pending errorMsg
      videoStatus := .discovered
      retryPushed := some
        [("task_id", .s (toString task.id)),
         ("video_id", .s (toString task.videoId)),
         ("queue_name", .s (if task.queueName == "" then "pixav:download"
                            else task.queueName)),
         ("retries", .n nextRetry),
         ("max_retries", .n task.maxRetries)]
      dlqPushed := none }
  else
    { taskWrite := .updateTaskState .failed errorMsg
      videoStatus := .failed
      retryPushed := none
      dlqPushed := some
        [("task_id", .s (toString task.id)),
         ("video_id", .s (toString task.videoId)),
         ("stage", .s "download"),
         ("attempts", .n task.retries),
         ("max_retries", .n task.maxRetries),
         ("error_message", .s errorMsg)] }

/-- `_build_retry_payload` (pixel_injector/worker.py lines 44-56). -/
def buildRetryPayload (task : Task) (retries : Nat) : Payload :=
  [("task_id", .s (toString task.id)),
   ("video_id", .s (toString task.videoId)),
   ("queue_name", .s task.queueName),
   ("retries", .n retries),
   ("max_retries", .n task.maxRetries)]
  ++ (match task.localPath with
      | some p => [("local_path", .s p)]
      | none => [])
  ++ (match task.accountId with
      | some a => [("account_id", .s (toString a))]
      | none => [])

/-- `_build_dlq_payload` (pixel_injector/worker.py lines 59-73);
`failedAt` stands for `datetime.now(timezone.utc).isoformat()`. -/
def buildDlqPayload (task : Task) (errorMsg failedAt : String) : Payload :=
  [("task_id", .s (toString task.id)),
   ("video_id", .s (toString task.videoId)),
   ("queue_name", .s task.queueName),
   ("stage", .s "upload"),
   ("attempts", .n task.retries),
   ("max_retries", .n task.maxRetries),
   ("error_message", .s errorMsg),
   ("failed_at", .s failedAt),
   ("dlq_replays", .n 0)]
  ++ (match task.accountId with
      | some a => [("account_id", .s (toString a))]
      | none => [])

/-- `_persist_failure` (pixel_injector/worker.py lines 275-315), with
repositories and both queues configured as `run_from_settings` wires
them. -/
def pixelInjectorPersistFailure (result : Task) (failedAt : String) :
    FailureOutcome :=
  let errorMsg := result.errorMessage.getD "upload stage failed"
  let nextRetry := result.retries + 1
  if isRetryableFailure errorMsg && decide (nextRetry ≤ result.maxRetries) then
    { taskWrite := .setRetry nextRetry .pending errorMsg
      videoStatus := .downloaded
      retryPushed := some (buildRetryPayload result nextRetry)
      dlqPushed := none }
  else
    { taskWrite := .updateTaskState .failed errorMsg
      videoStatus := .failed
      retryPushed := none
      dlqPushed := some (buildDlqPayload result errorMsg failedAt) }

/-- A download task with its retry budget exhausted
(`retries = max_retries = 3`). -/
def exhaustedDownloadTask : Task :=
  { id := 2, videoId := 3, accountId := none, state := .downloading,
    queueName := "pixav:download", localPath := none, shareUrl := none,
    retries := 3, maxRetries := 3, errorMessage := none, createdAt := 0,
    updatedAt := none }

/-- An upload task whose failure message is non-retryable. -/
def nonRetryableUploadTask : Task :=
  { id := 4, videoId := 5, accountId := some 9, state := .uploading,
    queueName := "pixav:upload", localPath := none, shareUrl := none,
    retries := 0, maxRetries := 10,
    errorMessage := some "video local_path is missing", createdAt := 0,
    updatedAt := none }

/-! ## Backpressure (`maxwell_core/backpressure.py`) -/

/-- The broker: named FIFO queues holding JSON payloads. -/
abbrev Queues := List (String × List Payload)

/-- `QueueDepthMonitor.check_pressure` (backpressure.py lines 36-60):
`true` (safe to dispatch) when the queue's depth is below the critical
threshold or the queue is unknown; `false` when backpressured.  The warn
threshold only logs and has no behavioural effect. -/
def checkPressure (critical : Nat) (queues : Queues) (queueName : String) : Bool :=
  match queues.lookup queueName with
  | none => true
  | some items => decide (items.length < critical)

/-- `TaskQueue.push` (shared/queue.py lines 25-30): `RPUSH` appends to the
named queue. -/
def queuePush (queues : Queues) (queueName : String) (p : Payload) : Queues :=
  queues.map fun q => if q.1 == queueName then (q.1, q.2 ++ [p]) else q

/-! ## Dispatcher (`maxwell_core/dispatcher.py`) -/

/-- The payload `RedisTaskDispatcher.dispatch` builds (dispatcher.py lines
46-58): `task_id` and `queue_name`, enriched from the task row when the
repository finds it. -/
def dispatchPayload (tasks : List Task) (tid : Nat) (queueName : String) : Payload :=
  [("task_id", .s (toString tid)), ("queue_name", .s queueName)]
  ++ (match tasks.find? (fun t => t.id == tid) with
      | none => []
      | some t =>
        [("video_id", .s (toString t.videoId)),
         ("retries", .n t.retries),
         ("max_retries", .n t.maxRetries)]
        ++ (match t.accountId with
            | some a => [("account_id", .s (toString a))]
            | none => []))

/-- `RedisTaskDispatcher.dispatch` (dispatcher.py lines 32-61): raise on
an unregistered queue, otherwise push the payload. -/
def dispatcherDispatch (tasks : List Task) (queues : Queues) (tid : Nat)
    (queueName : String) : Except String Queues :=
  match queues.lookup queueName with
  | none => .error "unknown queue"
  | some _ => .ok (queuePush queues queueName (dispatchPayload tasks tid queueName))

/-! ## Orchestrator (`maxwell_core/orchestrator.py`) -/

/-- The `MaxwellOrchestrator` constructor arguments plus the monitor's
critical threshold, the scheduler's lease and the cleaner's orphan age. -/
structure OrchConfig where
  downloadQueueName : String
  uploadQueueName : String
  noAccountPolicy : String
  batchSize : Nat
  leaseSeconds : Int
  criticalThreshold : Nat
  orphanMaxAge : Int
deriving DecidableEq, Repr

/-- The durable state the orchestrator reads and writes. -/
structure OrchState where
  tasks : List Task
  accounts : List Account
  queues : Queues
deriving DecidableEq, Repr

/-- The `stats` dictionary `tick` returns (orchestrator.py lines 55-61). -/
structure TickStats where
  dispatched : Nat
  skippedPressure : Nat
  orphansCleaned : Nat
  waitingNoAccount : Nat
  failedNoAccount : Nat
deriving DecidableEq, Repr

/-- The per-task body of the dispatch loop in `MaxwellOrchestrator.tick`
(orchestrator.py lines 74-112): resolve the target queue (empty
`queue_name` falls back to the download queue), gate on backpressure, for
upload-bound tasks lease an account under the `no_account_policy`, then
dispatch, advance the task state and mark the account used.  Exceptions
from the dispatcher are caught and leave the already-persisted writes in
place. -/
def tickStep (cfg : OrchConfig) (now : Int) (acc : TickStats × OrchState)
    (task : Task) : TickStats × OrchState :=
  let stats := acc.1
  let st := acc.2
  let queueName := if task.queueName == "" then cfg.downloadQueueName else task.queueName
  let nextState := if queueName == cfg.uploadQueueName then TaskState.uploading
                   else TaskState.downloading
  if checkPressure cfg.criticalThreshold st.queues queueName = false then
    ({ stats with skippedPressure := stats.skippedPressure + 1 }, st)
  else
    if queueName == cfg.uploadQueueName then
      match nextAccount cfg.leaseSeconds now st.accounts with
      | (.error e, accounts₁) =>
        if cfg.noAccountPolicy == "fail" then
          ({ stats with failedNoAccount := stats.failedNoAccount + 1 },
           { st with accounts := accounts₁,
                     tasks := updateState now task.id .failed (some e) st.tasks })
        else
          ({ stats with waitingNoAccount := stats.waitingNoAccount + 1 },
           { st with accounts := accounts₁ })
      | (.ok aid, accounts₁) =>
        let tasks₁ := assignAccount now task.id aid st.tasks
        match dispatcherDispatch tasks₁ st.queues task.id queueName with
        | .error _ => (stats, { st with accounts := accounts₁, tasks := tasks₁ })
        | .ok queues₁ =>
          ({ stats with dispatched := stats.dispatched + 1 },
           { st with accounts := markUsed now aid accounts₁,
                     tasks := updateState now task.id nextState none tasks₁,
                     queues := queues₁ })
    else
      match dispatcherDispatch st.tasks st.queues task.id queueName with
      | .error _ => (stats, st)
      | .ok queues₁ =>
        ({ stats with dispatched := stats.dispatched + 1 },
         { st with tasks := updateState now task.id nextState none st.tasks,
                   queues := queues₁ })

/-- `MaxwellOrchestrator.tick` (orchestrator.py lines 49-114): GC pass,
early return when nothing is pending, then the dispatch loop over the
first `batch_size` pending tasks by `created_at`. -/
def tick (cfg : OrchConfig) (now : Int) (st : OrchState) : TickStats × OrchState :=
  let gcRes := gcCleanup now cfg.orphanMaxAge st.tasks
  let st₀ : OrchState := { st with tasks := gcRes.1 }
  let stats₀ : TickStats :=
    { dispatched := 0, skippedPressure := 0, orphansCleaned := gcRes.2,
      waitingNoAccount := 0, failedNoAccount := 0 }
  if countByState .pending st₀.tasks == 0 then (stats₀, st₀)
  else (listPending cfg.batchSize st₀.tasks).foldl (tickStep cfg now) (stats₀, st₀)

/-- The orchestrator defaults (`orchestrator.py` lines 33-36, scheduler
lease 600 s, monitor critical threshold 100, GC age 7200 s) with
`no_account_policy = "fail"`. -/
def orchCfgFail : OrchConfig :=
  { downloadQueueName := "pixav:download", uploadQueueName := "pixav:upload",
    noAccountPolicy := "fail", batchSize := 5, leaseSeconds := 600,
    criticalThreshold := 100, orphanMaxAge := 7200 }

/-- The orchestrator defaults with `no_account_policy = "wait"`. -/
def orchCfgWait : OrchConfig :=
  { orchCfgFail with noAccountPolicy := "wait" }

/-- The wait-policy configuration with `critical_threshold = 1`. -/
def orchCfgWaitCrit1 : OrchConfig :=
  { orchCfgWait with criticalThreshold := 1 }

/-- An upload-bound pending task with id, video id and `created_at` all
`i`. -/
def uploadPendingTask (i : Nat) : Task :=
  { id := i, videoId := i, accountId := none, state := .pending,
    queueName := "pixav:upload", localPath := none, shareUrl := none,
    retries := 0, maxRetries := 10, errorMessage := none, createdAt := (i : Int),
    updatedAt := none }

/-- A download-bound pending task with id, video id and `created_at` all
`i`. -/
def downloadPendingTask (i : Nat) : Task :=
  { id := i, videoId := i, accountId := none, state := .pending,
    queueName := "pixav:download", localPath := none, shareUrl := none,
    retries := 0, maxRetries := 10, errorMessage := none, createdAt := (i : Int),
    updatedAt := none }

/-- Both worker queues registered and empty. -/
def emptyBothQueues : Queues := [("pixav:download", []), ("pixav:upload", [])]

/-- Six upload-bound pending tasks against an empty account pool. -/
def sixUploadState : OrchState :=
  { tasks := [uploadPendingTask 1, uploadPendingTask 2, uploadPendingTask 3,
              uploadPendingTask 4, uploadPendingTask 5, uploadPendingTask 6],
    accounts := [], queues := emptyBothQueues }

/-- One upload-bound pending task against an empty account pool. -/
def singleUploadState : OrchState :=
  { tasks := [uploadPendingTask 1], accounts := [], queues := emptyBothQueues }

/-- One download-bound pending task, no accounts needed. -/
def singleDownloadState : OrchState :=
  { tasks := [downloadPendingTask 1], accounts := [], queues := emptyBothQueues }

/-- All-zero tick statistics. -/
def zeroStats : TickStats :=
  { dispatched := 0, skippedPressure := 0, orphansCleaned := 0,
    waitingNoAccount := 0, failedNoAccount := 0 }

/-- One upload-bound pending task with one payload already sitting on the
upload queue (depth 1). -/
def busyUploadState : OrchState :=
  { tasks := [uploadPendingTask 1], accounts := [],
    queues := [("pixav:download", []), ("pixav:upload", [[]])] }

/-! ## Resolver (`strm_resolver/routes.py` `_resolve_cdn`,
`strm_resolver/cache.py` `CdnCache`) -/

/-- A `videos` row as the resolver reads it (`SELECT id, share_url,
cdn_url`) and writes it (`cdn_url`, `status`, `updated_at`). -/
structure VideoRow where
  id : Nat
  localPath : Option String
  shareUrl : Option String
  cdnUrl : Option String
  status : VideoStatus
  updatedAt : Option Int
deriving DecidableEq, Repr

/-- `VideoRepository.update_status`-style write used by the replayer
(repository.py lines 90-101). -/
def updateVideoStatus (now : Int) (vid : Nat) (status : VideoStatus)
    (rows : List VideoRow) : List VideoRow :=
  rows.map fun r =>
    if r.id = vid then { r with status := status, updatedAt := some now } else r

/-- The `UPDATE videos SET cdn_url = $1, status = 'available',
updated_at = now()` statement of `_resolve_cdn` (routes.py lines
107-117 and 127-137). -/
def setVideoCdn (now : Int) (vid : Nat) (cdn : String) (rows : List VideoRow) :
    List VideoRow :=
  rows.map fun r =>
    if r.id = vid then
      { r with cdnUrl := some cdn, status := .available, updatedAt := some now }
    else r

/-- `CdnCache.set` (cache.py lines 34-42): `SETEX` overwrites the entry
for the key. -/
def cacheSet (cache : List (Nat × String)) (vid : Nat) (url : String) :
    List (Nat × String) :=
  (vid, url) :: cache

/-- State the resolver reads and writes: the TTL cache and the `videos`
table. -/
structure ResolveState where
  cache : List (Nat × String)
  videos : List VideoRow
deriving DecidableEq, Repr

/-- The `source` tag `_resolve_cdn` returns. -/
inductive ResolveSource where
  | cache
  | database
  | localMode
  | resolved
deriving DecidableEq, Repr

/-- The HTTP error responses of `_resolve_cdn`. -/
inductive ResolveFailure where
  | notFound
  | conflict
  | badGateway
deriving DecidableEq, Repr

/-- Configuration of the resolver route: the local share scheme and the
request base URL. -/
structure ResolveConfig where
  localScheme : String
  baseUrl : String
deriving DecidableEq, Repr

/-- `_resolve_cdn` (routes.py lines 69-139) for a parsed video id:
cache hit (Python truthiness: a `None` or empty cached value is a miss),
then the database row (`404` when absent; a non-empty `cdn_url` is served
and cached; no `share_url` is `409`), then the local-scheme synthesis,
then the external resolver (`resolver : String → Option String`, `none`
modelling `ResolveError` / `502`).  Returns the result, the next state,
and the number of external-resolver calls made. -/
def resolveCdn (cfg : ResolveConfig) (resolver : String → Option String)
    (now : Int) (st : ResolveState) (vid : Nat) :
    Except ResolveFailure (String × ResolveSource) × ResolveState × Nat :=
  let cached := st.cache.lookup vid
  let hit := match cached with
    | some c => if c = "" then none else some c
    | none => none
  match hit with
  | some c => (.ok (c, .cache), st, 0)
  | none =>
    match st.videos.find? (fun r => r.id == vid) with
    | none => (.error .notFound, st, 0)
    | some row =>
      let dbCdn := match row.cdnUrl with
        | some u => if u = "" then none else some u
        | none => none
      match dbCdn with
      | some u => (.ok (u, .database), { st with cache := cacheSet st.cache vid u }, 0)
      | none =>
        match row.shareUrl with
        | none => (.error .conflict, st, 0)
        | some s =>
          if s = "" then (.error .conflict, st, 0)
          else if charsPrefix cfg.localScheme.data s.data then
            let cdn := cfg.baseUrl ++ "/local/" ++ toString vid
            (.ok (cdn, .localMode),
             { st with videos := setVideoCdn now vid cdn st.videos,
                       cache := cacheSet st.cache vid cdn }, 0)
          else
            match resolver s with
            | none => (.error .badGateway, st, 1)
            | some cdn =>
              (.ok (cdn, .resolved),
               { st with videos := setVideoCdn now vid cdn st.videos,
                         cache := cacheSet st.cache vid cdn }, 1)

/-- The resolver route configuration with the default local scheme. -/
def sampleResolveConfig : ResolveConfig :=
  { localScheme := "pixav-local://", baseUrl := "http://resolver" }

/-- A video row with a share URL but no CDN URL yet. -/
def unresolvedVideoRow : VideoRow :=
  { id := 8, localPath := none, shareUrl := some "https://share/x",
    cdnUrl := none, status := .available, updatedAt := none }

/-- Resolver state: warm cache for video 7, video 8 unresolved in the
database. -/
def sampleResolveState : ResolveState :=
  { cache := [(7, "https://cdn/seven")], videos := [unresolvedVideoRow] }

/-- An external resolver returning a fixed CDN URL for the sample share
URL. -/
def sampleResolver : String → Option String :=
  fun s => if s = "https://share/x" then some "https://cdn/eight" else none

/-! ## Delayed DLQ replay (`pixel_injector/worker.py` `_replay_due_dlq`) -/

/-- An entry of the delayed-replay sorted set: its score (ready-at time)
and its member string parsed as JSON — `none` models a member that
`json.loads` rejects. -/
structure DlqScheduleEntry where
  score : Int
  raw : Option Payload
deriving DecidableEq, Repr

/-- State `_replay_due_dlq` reads and writes. -/
structure ReplayState where
  schedule : List DlqScheduleEntry
  retryQueue : List Payload
  tasks : List Task
  videos : List VideoRow
deriving DecidableEq, Repr

/-- Python `isinstance(x, str)` on a payload value. -/
def pvalStr : Option PVal → Option String
  | some (.s s) => some s
  | _ => none

/-- `int(payload.get("dlq_replays", 0))` — non-numeric values are treated
as the default. -/
def pvalNat : Option PVal → Nat
  | some (.n k) => k
  | _ => 0

/-- The model of `uuid.UUID(value)` (`_safe_uuid`): ids are rendered as
decimal strings, so parsing is `String.toNat?`; `none` models an invalid
id. -/
def parseId (s : String) : Option Nat := s.toNat?

/-- Processing of one due entry inside `_replay_due_dlq` (worker.py lines
192-234), after its `ZREM`: skip malformed JSON and missing string ids;
otherwise push a replay payload carrying `retries = 0` and
`max_retries = default_max_retries` (plus `account_id` when present),
reset the task row to `pending` with a replay note, and set the video back
to `downloaded`.  Returns the new state and 1 when replayed, 0 when
skipped. -/
def replayStep (queueName : String) (defaultMaxRetries : Nat) (now : Int)
    (st : ReplayState) (entry : DlqScheduleEntry) : ReplayState × Nat :=
  match entry.raw with
  | none => (st, 0)
  | some payload =>
    match pvalStr (payload.lookup "task_id"), pvalStr (payload.lookup "video_id") with
    | some tid, some vidS =>
      let replayPayload : Payload :=
        [("task_id", .s tid), ("video_id", .s vidS),
         ("queue_name", .s queueName), ("retries", .n 0),
         ("max_retries", .n defaultMaxRetries)]
        ++ (match pvalStr (payload.lookup "account_id") with
            | some a => [("account_id", .s a)]
            | none => [])
      let replayCount := pvalNat (payload.lookup "dlq_replays")
      ({ st with
          retryQueue := st.retryQueue ++ [replayPayload],
          tasks := match parseId tid with
            | some t => updateState now t .pending
                (some ("replayed from dlq (" ++ toString replayCount ++ ")")) st.tasks
            | none => st.tasks,
          videos := match parseId vidS with
            | some v => updateVideoStatus now v .downloaded st.videos
            | none => st.videos }, 1)
    | _, _ => (st, 0)

/-- `ZRANGEBYSCORE schedule -inf now LIMIT 0 maxItems`: the first
`maxItems` due entries in order. -/
def takeDue (now : Int) : Nat → List DlqScheduleEntry → List DlqScheduleEntry
  | _, [] => []
  | 0, _ => []
  | k + 1, e :: rest =>
    if e.score ≤ now then e :: takeDue now k rest
    else takeDue now (k + 1) rest

/-- The `ZREM` of those entries. -/
def removeDue (now : Int) : Nat → List DlqScheduleEntry → List DlqScheduleEntry
  | _, [] => []
  | 0, l => l
  | k + 1, e :: rest =>
    if e.score ≤ now then removeDue now k rest
    else e :: removeDue now (k + 1) rest

/-- `_replay_due_dlq` (worker.py lines 171-236): select and remove the due
entries (default `max_items = 20`), then process each in order. -/
def replayDueDlq (queueName : String) (defaultMaxRetries : Nat) (now : Int)
    (maxItems : Nat) (st : ReplayState) : ReplayState × Nat :=
  (takeDue now maxItems st.schedule).foldl
    (fun acc e =>
      let r := replayStep queueName defaultMaxRetries now acc.1 e
      (r.1, acc.2 + r.2))
    ({ st with schedule := removeDue now maxItems st.schedule }, 0)

/-- A DLQ entry recording two earlier attempts and one replay, due at
time 50. -/
def sampleDlqEntry : DlqScheduleEntry :=
  { score := 50,
    raw := some
      [("task_id", .s "11"), ("video_id", .s "12"),
       ("queue_name", .s "pixav:upload"), ("stage", .s "upload"),
       ("attempts", .n 2), ("max_retries", .n 2),
       ("error_message", .s "verify timeout"),
       ("failed_at", .s "2026-01-01T00:00:00+00:00"),
       ("dlq_replays", .n 1)] }

/-- Replay state holding the failed task 11 and video 12. -/
def sampleReplayState : ReplayState :=
  { schedule := [sampleDlqEntry],
    retryQueue := [],
    tasks := [{ id := 11, videoId := 12, accountId := none, state := .failed,
                queueName := "pixav:upload", localPath := none, shareUrl := none,
                retries := 2, maxRetries := 2,
                errorMessage := some "verify timeout", createdAt := 0,
                updatedAt := none }],
    videos := [{ id := 12, localPath := some "/data/v.mp4",
                 shareUrl := none, cdnUrl := none, status := .failed,
                 updatedAt := none }] }

/-! ### Order lemmas for the LRU selection -/

theorem lruLe_refl (x : Option Int) : lruLe x x := by
  cases x <;> simp [lruLe]

theorem lruLe_of_lt {x y : Option Int} (h : lruLt x y) : lruLe x y := by
  cases x <;> cases y <;> simp_all [lruLt, lruLe] <;> omega

theorem lruLe_of_not_lt {x y : Option Int} (h : ¬ lruLt x y) : lruLe y x := by
  cases x <;> cases y <;> simp_all [lruLt, lruLe] <;> omega

theorem lruLe_trans {x y z : Option Int} (h₁ : lruLe x y) (h₂ : lruLe y z) :
    lruLe x z := by
  cases x <;> cases y <;> cases z <;> simp_all [lruLe] <;> omega

theorem selectLru_eq_none {l : List Account} : selectLru l = none ↔ l = [] := by
  cases l with
  | nil => simp [selectLru]
  | cons a rest =>
    simp only [selectLru]
    cases selectLru rest <;> simp <;> split <;> simp

theorem selectLru_mem : ∀ {l : List Account} {a : Account},
    selectLru l = some a → a ∈ l := by
  intro l
  induction l with
  | nil => intro a h; simp [selectLru] at h
  | cons c rest ih =>
    intro a h
    simp only [selectLru] at h
    cases hr : selectLru rest with
    | none => rw [hr] at h; simp at h; simp [h]
    | some m =>
      rw [hr] at h
      simp only at h
      split at h
      · simp at h; subst h; exact List.mem_cons_of_mem _ (ih hr)
      · simp at h; simp [h]

theorem selectLru_min : ∀ {l : List Account} {a : Account},
    selectLru l = some a → ∀ b ∈ l, lruLe a.lastUsedAt b.lastUsedAt := by
  intro l
  induction l with
  | nil => intro a h; simp [selectLru] at h
  | cons c rest ih =>
    intro a h b hb
    simp only [selectLru] at h
    cases hr : selectLru rest with
    | none =>
      rw [hr] at h; simp at h; subst h
      rcases List.mem_cons.mp hb with hb | hb
      · subst hb; exact lruLe_refl _
      · rw [selectLru_eq_none.mp hr] at hb; simp at hb
    | some m =>
      rw [hr] at h
      simp only at h
      split at h
      · next hlt =>
        simp at h; subst h
        rcases List.mem_cons.mp hb with hb | hb
        · subst hb; exact lruLe_of_lt hlt
        · exact ih hr b hb
      · next hnlt =>
        simp at h; subst h
        rcases List.mem_cons.mp hb with hb | hb
        · subst hb; exact lruLe_refl _
        · exact lruLe_trans (lruLe_of_not_lt hnlt) (ih hr b hb)

/-! ### Claim C1 — `next_account` selection contract -/

/-- C1 counterexample: a pool holding a single `cooldown` account whose
`cooldown_until` has passed.  No account of the pool satisfies the claim's
candidate conditions (none is `active`), so the claim requires the
no-active-accounts error; the code instead reactivates the row inside
`next_account` and returns its id. -/
theorem C1_counterexample :
    ([cooldownExpiredAccount].filter (isCandidate 10) = [])
    ∧ (nextAccount 600 10 [cooldownExpiredAccount]).1 = .ok 1 := by
  constructor
  · decide
  · decide

/-- C1 (amended): `next_account()` first reactivates every `cooldown` row
whose `cooldown_until ≤ now`; among the resulting rows it selects a row
that is `active`, with `cooldown_until` null or `≤ now`, `lease_expires_at`
null or `≤ now`, and `quota_reset_at ≤ now` or
`daily_uploaded_bytes < daily_quota_bytes`, minimal for `last_used_at`
ascending with nulls first; it stamps `lease_expires_at = now +
lease_duration` on that row and returns its id, and it raises the
no-active-accounts error exactly when no such candidate exists after the
reactivation pass. -/
theorem C1_next_account_amended (leaseSeconds now : Int) (accounts : List Account) :
    ((nextAccount leaseSeconds now accounts).1 = .error noActiveAccountsMsg ↔
      (accounts.map (reactivateRow now)).filter (isCandidate now) = [])
    ∧ (∀ aid, (nextAccount leaseSeconds now accounts).1 = .ok aid →
        ∃ a ∈ accounts.map (reactivateRow now),
          isCandidate now a = true ∧ a.id = aid
          ∧ (∀ b ∈ accounts.map (reactivateRow now),
              isCandidate now b = true → lruLe a.lastUsedAt b.lastUsedAt)
          ∧ (nextAccount leaseSeconds now accounts).2 =
              stampLease leaseSeconds now aid (accounts.map (reactivateRow now))) := by
  have hdef : nextAccount leaseSeconds now accounts =
      (match selectLru ((accounts.map (reactivateRow now)).filter (isCandidate now)) with
        | none => (Except.error noActiveAccountsMsg, accounts.map (reactivateRow now))
        | some a =>
            (Except.ok a.id,
              stampLease leaseSeconds now a.id (accounts.map (reactivateRow now)))) := rfl
  cases h : selectLru ((accounts.map (reactivateRow now)).filter (isCandidate now)) with
  | none =>
    rw [h] at hdef
    refine ⟨?_, ?_⟩
    · rw [hdef]
      exact ⟨fun _ => selectLru_eq_none.mp h, fun _ => rfl⟩
    · intro aid hok
      rw [hdef] at hok
      exact absurd hok (by simp)
  | some a =>
    rw [h] at hdef
    refine ⟨?_, ?_⟩
    · rw [hdef]
      constructor
      · intro hc; exact absurd hc (by simp)
      · intro hc; rw [hc] at h; simp [selectLru] at h
    · intro aid hok
      rw [hdef] at hok
      simp only [Except.ok.injEq] at hok
      refine ⟨a, ?_, ?_, ?_, ?_, ?_⟩
      · exact (List.mem_filter.mp (selectLru_mem h)).1
      · exact (List.mem_filter.mp (selectLru_mem h)).2
      · exact hok
      · intro b hb hcand
        exact selectLru_min h b (List.mem_filter.mpr ⟨hb, hcand⟩)
      · rw [hdef, ← hok]

/-- C1 witness: the amended theorem applied to the concrete two-account
pool `lruPool`; the LRU row (null `last_used_at`, id 7) is certified as
the selection. -/
theorem C1_next_account_amended_witness :
    ∃ a ∈ lruPool.map (reactivateRow 100),
      isCandidate 100 a = true ∧ a.id = 7
      ∧ (∀ b ∈ lruPool.map (reactivateRow 100),
          isCandidate 100 b = true → lruLe a.lastUsedAt b.lastUsedAt)
      ∧ (nextAccount 600 100 lruPool).2 =
          stampLease 600 100 7 (lruPool.map (reactivateRow 100)) :=
  (C1_next_account_amended 600 100 lruPool).2 7 (by decide)

/-! ### Claim C2 — `apply_upload_usage` quota accounting -/

/-- C2: for every account and non-negative byte count `b`,
`apply_upload_usage` adds `b` to `daily_uploaded_bytes` (restarting the
counter at `b` when `quota_reset_at ≤ now`), and when the resulting total
reaches `daily_quota_bytes` it sets `status = cooldown` and
`cooldown_until = quota_reset_at`; concretely, for an account with
`daily_quota_bytes = 100` and `daily_uploaded_bytes = 90`, applying 15
bytes yields `daily_uploaded_bytes = 105`, `status = cooldown`,
`cooldown_until = quota_reset_at`, after which `next_account()` on that
pool raises no-active-accounts. -/
theorem C2_apply_upload_usage (a : Account) (now b : Int) (hb : 0 ≤ b) :
    ((applyUploadUsageRow now b a).dailyUploadedBytes =
        (if a.quotaResetAt ≤ now then b else a.dailyUploadedBytes + b)
      ∧ ((if a.quotaResetAt ≤ now then b else a.dailyUploadedBytes + b) ≥
            a.dailyQuotaBytes →
          (applyUploadUsageRow now b a).status = .cooldown
          ∧ (applyUploadUsageRow now b a).cooldownUntil = some a.quotaResetAt))
    ∧ ((applyUploadUsage 1000 1 15 [quotaNearAccount]).head?.map
            (fun r => (r.dailyUploadedBytes, r.status, r.cooldownUntil)) =
          some (105, .cooldown, some 86400)
        ∧ (nextAccount 600 1000 (applyUploadUsage 1000 1 15 [quotaNearAccount])).1 =
            .error noActiveAccountsMsg) := by
  refine ⟨⟨?_, ?_⟩, by decide⟩
  · simp [applyUploadUsageRow, max_eq_left hb]
  · intro hq
    constructor
    · simp only [applyUploadUsageRow, max_eq_left hb]
      split <;> simp_all
    · simp only [applyUploadUsageRow, max_eq_left hb]
      split <;> simp_all

/-- C2 witness: the theorem instantiated at the §8 scenario-4 account with
`b = 15`. -/
theorem C2_apply_upload_usage_witness :
    ((applyUploadUsageRow 1000 15 quotaNearAccount).dailyUploadedBytes =
      (if quotaNearAccount.quotaResetAt ≤ 1000 then 15
       else quotaNearAccount.dailyUploadedBytes + 15)) ∧ (0 : Int) ≤ 15 :=
  ⟨(C2_apply_upload_usage quotaNearAccount 1000 15 (by norm_num)).1.1, by norm_num⟩

/-! ### Claim C3 — insert / find_by_info_hash round trip -/

/-- C3: `VideoRepository.insert` evaluates `video.info_hash` (and
`video.quality_score`, `video.tags`, `video.embedding`), but the frozen
pydantic `Video` model of `shared/models.py` declares none of those
fields, so the attribute access raises `AttributeError` for every video
and on every database state — `insert` can never persist a row, so the
claimed round trip `insert(v); find_by_info_hash(v.info_hash)` cannot
even start.  In particular this happens on the model value the
repository's own test suite passes to `insert`. -/
theorem C3_insert_always_attribute_error :
    (∀ (db : List VideoTableRow) (v : Video),
        videoInsert db v = .error .attributeError)
    ∧ videoInsert [] sampleInsertVideo = .error .attributeError := by
  refine ⟨fun db v => rfl, rfl⟩

/-! ### Claim C8 — orphan GC pass -/

theorem isOrphan_iff (now maxAge : Int) (t : Task) :
    isOrphan now maxAge t = true ↔
      t.state ∈ transientStates ∧ ∃ u, t.updatedAt = some u ∧ u < now - maxAge := by
  cases hu : t.updatedAt with
  | none =>
    simp only [isOrphan, hu, Bool.and_eq_true]
    constructor
    · rintro ⟨-, h⟩; cases h
    · rintro ⟨-, u, hu', -⟩; cases hu'
  | some u =>
    simp only [isOrphan, hu, Bool.and_eq_true, decide_eq_true_eq]
    constructor
    · rintro ⟨hmem, hlt⟩
      exact ⟨List.mem_of_elem_eq_true hmem, u, rfl, hlt⟩
    · rintro ⟨hmem, u', hu', hlt⟩
      injection hu' with h; subst h
      exact ⟨List.elem_eq_true_of_mem hmem, hlt⟩

/-- C8 counterexample: a task stuck in `downloading` since time 0 is
cleaned at `now = 10000` (`max_age = 7200`), but its error message is the
string `"orphan cleanup: stuck in transient state"`, not the claim's
`"orphan cleanup"`. -/
theorem C8_counterexample :
    ((gcCleanup 10000 7200 [orphanSampleTask]).1.map
        fun t => (t.state, t.errorMessage)) =
      [(TaskState.failed, some orphanCleanupMsg)]
    ∧ orphanCleanupMsg ≠ "orphan cleanup" := by
  constructor
  · decide
  · decide

/-- C8 (amended): one GC pass marks as `failed` exactly those tasks whose
state is transient (`downloading|remuxing|uploading|verifying`) and whose
`updated_at` is older than `orphan_max_age` (default 7200 s), setting
their error message to `"orphan cleanup: stuck in transient state"` (which
begins with "orphan cleanup") and bumping `updated_at`; other tasks are
unchanged, and the pass returns the count of tasks so marked. -/
theorem C8_gc_amended (now maxAge : Int) (tasks : List Task) :
    (∀ t ∈ tasks,
       (t.state ∈ transientStates ∧ ∃ u, t.updatedAt = some u ∧ u < now - maxAge) →
         ({ t with state := .failed, errorMessage := some orphanCleanupMsg,
                   updatedAt := some now } : Task) ∈ (gcCleanup now maxAge tasks).1)
    ∧ (∀ t ∈ tasks,
        ¬ (t.state ∈ transientStates ∧ ∃ u, t.updatedAt = some u ∧ u < now - maxAge) →
          t ∈ (gcCleanup now maxAge tasks).1)
    ∧ (gcCleanup now maxAge tasks).2 = (tasks.filter (isOrphan now maxAge)).length
    ∧ (gcCleanup now maxAge tasks).1.length = tasks.length := by
  refine ⟨?_, ?_, rfl, by simp [gcCleanup]⟩
  · intro t ht hcond
    have horph : isOrphan now maxAge t = true := (isOrphan_iff now maxAge t).mpr hcond
    have hmem := List.mem_map_of_mem
      (fun t => if isOrphan now maxAge t then
          ({ t with state := .failed, errorMessage := some orphanCleanupMsg,
                    updatedAt := some now } : Task)
        else t) ht
    simpa [gcCleanup, horph] using hmem
  · intro t ht hcond
    have horph : isOrphan now maxAge t = false := by
      cases h : isOrphan now maxAge t
      · rfl
      · exact absurd ((isOrphan_iff now maxAge t).mp h) hcond
    have hmem := List.mem_map_of_mem
      (fun t => if isOrphan now maxAge t then
          ({ t with state := .failed, errorMessage := some orphanCleanupMsg,
                    updatedAt := some now } : Task)
        else t) ht
    simpa [gcCleanup, horph] using hmem

/-! ### Claim C4 — ingester idempotency and the open-task invariant -/

theorem openCount_append (vid : Nat) (l₁ l₂ : List Task) :
    openCount vid (l₁ ++ l₂) = openCount vid l₁ + openCount vid l₂ := by
  simp [openCount, List.filter_append]

theorem openCount_eq_zero_of_not_open {vid : Nat} {tasks : List Task}
    (h : hasOpenTask vid tasks = false) : openCount vid tasks = 0 := by
  simp only [hasOpenTask, List.any_eq_false] at h
  simp only [openCount, List.length_eq_zero, List.filter_eq_nil]
  intro a ha
  simpa using h a ha

theorem openCount_singleton_le (vid : Nat) (t : Task) : openCount vid [t] ≤ 1 := by
  simp only [openCount]
  exact le_trans (List.length_filter_le _ _) (by simp)

theorem ingestOne_openCount (dq : String) (now : Int) (st : IngestState)
    (p : CrawlPayload) (vid' : Nat) :
    openCount vid' (ingestOne dq now st p).1.tasks ≤ max 1 (openCount vid' st.tasks) := by
  cases hp : p.videoId with
  | none => simp only [ingestOne, hp]; exact le_max_right _ _
  | some vid =>
    by_cases hcm : vid ∈ st.videoIds
    · cases hopen : hasOpenTask vid st.tasks with
      | true =>
        have h : ingestOne dq now st p = (st, 0) := by
          simp [ingestOne, hp, hcm, hopen]
        rw [h]
        exact le_max_right _ _
      | false =>
        have hstep : (ingestOne dq now st p).1.tasks =
            st.tasks ++ [newPendingTask st.nextTaskId vid dq now] := by
          simp [ingestOne, hp, hcm, hopen]
        rw [hstep, openCount_append]
        by_cases hv : vid' = vid
        · subst hv
          rw [openCount_eq_zero_of_not_open hopen]
          have := openCount_singleton_le vid' (newPendingTask st.nextTaskId vid' dq now)
          omega
        · have hz : openCount vid' [newPendingTask st.nextTaskId vid dq now] = 0 := by
            simp [openCount, newPendingTask]
            exact fun h => absurd h.symm hv
          omega
    · have h : ingestOne dq now st p = (st, 0) := by
        simp [ingestOne, hp, hcm]
      rw [h]
      exact le_max_right _ _

theorem ingest_openCount (dq : String) (now : Int) :
    ∀ (n : Nat) (st : IngestState) (vid' : Nat),
      openCount vid' ((ingestCrawlQueue dq now n st).1).tasks ≤
        max 1 (openCount vid' st.tasks) := by
  intro n
  induction n with
  | zero => intro st vid'; simp only [ingestCrawlQueue]; omega
  | succ k ih =>
    intro st vid'
    cases hq : st.crawlQueue with
    | nil => simp only [ingestCrawlQueue, hq]; omega
    | cons p rest =>
      simp only [ingestCrawlQueue, hq]
      have h1 := ingestOne_openCount dq now { st with crawlQueue := rest } p vid'
      have h2 := ih (ingestOne dq now { st with crawlQueue := rest } p).1 vid'
      simp only at h1 h2
      omega

/-- C4: a payload whose video already has an open task is skipped with no
task row inserted; a payload with a parseable id, an existing video and no
open task inserts exactly one new `pending` task with `queue_name` the
download queue; and across a whole ingestion pass the open-task count of
every video never exceeds `max 1` of its initial value. -/
theorem C4_ingest_idempotent (dq : String) (now : Int) :
    (∀ (st : IngestState) (p : CrawlPayload) (vid : Nat),
        p.videoId = some vid → hasOpenTask vid st.tasks = true →
        ingestOne dq now st p = (st, 0))
    ∧ (∀ (st : IngestState) (p : CrawlPayload) (vid : Nat),
        p.videoId = some vid → st.videoIds.contains vid = true →
        hasOpenTask vid st.tasks = false →
        ingestOne dq now st p =
          ({ st with
              tasks := st.tasks ++ [newPendingTask st.nextTaskId vid dq now],
              nextTaskId := st.nextTaskId + 1 }, 1))
    ∧ (∀ (n : Nat) (st : IngestState) (vid : Nat),
        openCount vid ((ingestCrawlQueue dq now n st).1).tasks ≤
          max 1 (openCount vid st.tasks)) := by
  refine ⟨?_, ?_, ingest_openCount dq now⟩
  · intro st p vid hp hopen
    by_cases hcm : vid ∈ st.videoIds
    · simp [ingestOne, hp, hcm, hopen]
    · simp [ingestOne, hp, hcm]
  · intro st p vid hp hc hopen
    have hcm : vid ∈ st.videoIds := by simpa using hc
    simp [ingestOne, hp, hcm, hopen]

/-- C4 witness: the insertion branch of the theorem applied to
`ingestSampleState` and the payload for video 5. -/
theorem C4_ingest_idempotent_witness :
    ingestOne "pixav:download" 0 ingestSampleState ⟨some 5⟩ =
      ({ ingestSampleState with
          tasks := ingestSampleState.tasks ++ [newPendingTask 0 5 "pixav:download" 0],
          nextTaskId := 1 }, 1) :=
  (C4_ingest_idempotent "pixav:download" 0).2.1 ingestSampleState ⟨some 5⟩ 5
    rfl (by decide) (by decide)

/-- C8 witness: the amended theorem applied to the single-orphan table at
`now = 10000`, `max_age = 7200`. -/
theorem C8_gc_amended_witness :
    ({ orphanSampleTask with
        state := .failed,
        errorMessage := some orphanCleanupMsg,
        updatedAt := some 10000 } : Task) ∈ (gcCleanup 10000 7200 [orphanSampleTask]).1 :=
  (C8_gc_amended 10000 7200 [orphanSampleTask]).1 orphanSampleTask
    (List.mem_singleton.mpr rfl) ⟨by decide, 0, rfl, by decide⟩

/-! ### Helpers for the orchestrator tick -/

theorem reactivateRow_idem (now : Int) (a : Account) :
    reactivateRow now (reactivateRow now a) = reactivateRow now a := by
  by_cases h : a.status = .cooldown ∧ ∃ c, a.cooldownUntil = some c ∧ c ≤ now
  · have h1 : reactivateRow now a =
        { a with status := .active, cooldownUntil := none, leaseExpiresAt := none,
                 dailyUploadedBytes := 0, quotaResetAt := nextDayStart now } := by
      rw [reactivateRow, if_pos h]
    rw [h1, reactivateRow, if_neg]
    rintro ⟨hs, -⟩
    simp at hs
  · have h1 : reactivateRow now a = a := by rw [reactivateRow, if_neg h]
    rw [h1, h1]

theorem reactivated_stable (now : Int) (accounts : List Account) :
    (accounts.map (reactivateRow now)).map (reactivateRow now) =
      accounts.map (reactivateRow now) := by
  rw [List.map_map]
  exact List.map_congr_left fun a _ => reactivateRow_idem now a

theorem nextAccount_error_of_empty {leaseSeconds now : Int} {accounts : List Account}
    (h : (accounts.map (reactivateRow now)).filter (isCandidate now) = []) :
    nextAccount leaseSeconds now accounts =
      (.error noActiveAccountsMsg, accounts.map (reactivateRow now)) := by
  have hdef : nextAccount leaseSeconds now accounts =
      (match selectLru ((accounts.map (reactivateRow now)).filter (isCandidate now)) with
        | none => (Except.error noActiveAccountsMsg, accounts.map (reactivateRow now))
        | some a =>
            (Except.ok a.id,
              stampLease leaseSeconds now a.id (accounts.map (reactivateRow now)))) := rfl
  rw [hdef, h]
  rfl

theorem updateState_id_state {now : Int} {tid : Nat} {stt : TaskState}
    {msg : Option String} {tasks : List Task} :
    ∀ row ∈ updateState now tid stt msg tasks,
      row.id = tid → row.state = stt ∧ row.errorMessage = msg := by
  intro row hrow hid
  rcases List.mem_map.mp hrow with ⟨r, hr, hfr⟩
  by_cases h : r.id = tid
  · rw [← hfr]; simp [h]
  · rw [← hfr] at hid
    simp [h] at hid

theorem updateState_preserves_failed {now : Int} {tid' tid : Nat}
    {msg : Option String} {tasks : List Task}
    (hprev : ∀ r ∈ tasks, r.id = tid → r.state = .failed ∧ r.errorMessage = some noActiveAccountsMsg)
    (hmsg : msg = some noActiveAccountsMsg) :
    ∀ row ∈ updateState now tid' .failed msg tasks,
      row.id = tid → row.state = .failed ∧ row.errorMessage = some noActiveAccountsMsg := by
  intro row hrow hid
  rcases List.mem_map.mp hrow with ⟨r, hr, hfr⟩
  by_cases h : r.id = tid'
  · rw [← hfr]; simp [h, hmsg]
  · rw [← hfr] at hid ⊢
    simp [h] at hid ⊢
    exact hprev r hr hid

theorem countByState_gc (now maxAge : Int) (tasks : List Task) :
    countByState .pending (gcCleanup now maxAge tasks).1 =
      countByState .pending tasks := by
  simp only [countByState, gcCleanup]
  rw [List.filter_map, List.length_map]
  congr 1
  apply List.filter_congr
  intro a _
  by_cases ho : isOrphan now maxAge a = true
  · have hmem : a.state ∈ transientStates := ((isOrphan_iff now maxAge a).mp ho).1
    have hnp : a.state ≠ .pending := by
      intro hp; rw [hp] at hmem; simp [transientStates] at hmem
    simp [Function.comp, ho, beq_eq_false_iff_ne.mpr hnp]
  · have ho' : isOrphan now maxAge a = false := by
      cases h : isOrphan now maxAge a
      · rfl
      · exact absurd h ho
    simp [Function.comp, ho']

theorem listPending_nil_of_no_pending {n : Nat} {tasks : List Task}
    (h : countByState .pending tasks = 0) : listPending n tasks = [] := by
  have hf : tasks.filter (fun t => t.state == TaskState.pending) = [] :=
    List.length_eq_zero.mp h
  simp [listPending, hf, sortByCreatedAt]

theorem tickStep_upload_noaccount (cfg : OrchConfig) (now : Int)
    (stats : TickStats) (st : OrchState) (t : Task)
    (ht : t.queueName = cfg.uploadQueueName)
    (hne : cfg.uploadQueueName ≠ "")
    (hpress : checkPressure cfg.criticalThreshold st.queues cfg.uploadQueueName = true)
    (hempty : (st.accounts.map (reactivateRow now)).filter (isCandidate now) = []) :
    tickStep cfg now (stats, st) t =
      (if cfg.noAccountPolicy == "fail" then
        ({ stats with failedNoAccount := stats.failedNoAccount + 1 },
         { st with accounts := st.accounts.map (reactivateRow now),
                   tasks := updateState now t.id .failed
                     (some noActiveAccountsMsg) st.tasks })
      else
        ({ stats with waitingNoAccount := stats.waitingNoAccount + 1 },
         { st with accounts := st.accounts.map (reactivateRow now) })) := by
  have hq : (t.queueName == "") = false := by
    refine beq_eq_false_iff_ne.mpr ?_
    rw [ht]; exact hne
  simp only [tickStep, hq, Bool.false_eq_true, if_false]
  rw [ht]
  rw [if_neg (by simp [hpress])]
  rw [if_pos (by simp)]
  rw [nextAccount_error_of_empty hempty]

theorem tickFold_fail (cfg : OrchConfig) (now : Int) :
    ∀ (batch : List Task) (stats : TickStats) (st : OrchState),
      cfg.noAccountPolicy = "fail" →
      cfg.uploadQueueName ≠ "" →
      (st.accounts.map (reactivateRow now)).filter (isCandidate now) = [] →
      checkPressure cfg.criticalThreshold st.queues cfg.uploadQueueName = true →
      (∀ t ∈ batch, t.queueName = cfg.uploadQueueName) →
      (batch.foldl (tickStep cfg now) (stats, st)).2.queues = st.queues
      ∧ (batch.foldl (tickStep cfg now) (stats, st)).1.failedNoAccount =
          stats.failedNoAccount + batch.length
      ∧ (∀ tid, ((∃ t ∈ batch, t.id = tid) ∨
            (∀ r ∈ st.tasks, r.id = tid →
              r.state = .failed ∧ r.errorMessage = some noActiveAccountsMsg)) →
          ∀ row ∈ (batch.foldl (tickStep cfg now) (stats, st)).2.tasks,
            row.id = tid →
              row.state = .failed ∧ row.errorMessage = some noActiveAccountsMsg) := by
  intro batch
  induction batch with
  | nil =>
    intro stats st _ _ _ _ _
    refine ⟨rfl, by simp, ?_⟩
    rintro tid (⟨t, ht, -⟩ | hp) row hrow hid
    · exact absurd ht (List.not_mem_nil t)
    · exact hp row hrow hid
  | cons t rest ih =>
    intro stats st hpol hne hempty hpress hbatch
    have ht : t.queueName = cfg.uploadQueueName := hbatch t (by simp)
    have hq : (t.queueName == "") = false :=
      beq_eq_false_iff_ne.mpr (by rw [ht]; exact hne)
    have hpol' : (cfg.noAccountPolicy == "fail") = true := by
      rw [hpol]; rfl
    have hstep : tickStep cfg now (stats, st) t =
        ({ stats with failedNoAccount := stats.failedNoAccount + 1 },
         { st with accounts := st.accounts.map (reactivateRow now),
                   tasks := updateState now t.id .failed
                     (some noActiveAccountsMsg) st.tasks }) := by
      rw [tickStep_upload_noaccount cfg now stats st t ht hne hpress hempty, if_pos hpol']
    rw [List.foldl_cons, hstep]
    have hih := ih { stats with failedNoAccount := stats.failedNoAccount + 1 }
      { st with accounts := st.accounts.map (reactivateRow now),
                tasks := updateState now t.id .failed
                  (some noActiveAccountsMsg) st.tasks }
      hpol hne
      (by show ((st.accounts.map (reactivateRow now)).map
            (reactivateRow now)).filter (isCandidate now) = []
          rw [reactivated_stable]; exact hempty)
      hpress (fun t' ht' => hbatch t' (by simp [ht']))
    refine ⟨hih.1, ?_, ?_⟩
    · rw [hih.2.1]
      simp only [List.length_cons]
      omega
    rintro tid (⟨t', ht', hid'⟩ | hp) row hrow hid
    · rcases List.mem_cons.mp ht' with h | h
      · subst h
        refine hih.2.2 tid (Or.inr ?_) row hrow hid
        intro r hr hrid
        exact updateState_id_state r hr (hid' ▸ hrid)
      · exact hih.2.2 tid (Or.inl ⟨t', h, hid'⟩) row hrow hid
    · refine hih.2.2 tid (Or.inr ?_) row hrow hid
      exact updateState_preserves_failed hp rfl

theorem tickFold_wait (cfg : OrchConfig) (now : Int) :
    ∀ (batch : List Task) (stats : TickStats) (st : OrchState),
      cfg.noAccountPolicy ≠ "fail" →
      cfg.uploadQueueName ≠ "" →
      (st.accounts.map (reactivateRow now)).filter (isCandidate now) = [] →
      checkPressure cfg.criticalThreshold st.queues cfg.uploadQueueName = true →
      (∀ t ∈ batch, t.queueName = cfg.uploadQueueName) →
      (batch.foldl (tickStep cfg now) (stats, st)).2.tasks = st.tasks
      ∧ (batch.foldl (tickStep cfg now) (stats, st)).2.queues = st.queues
      ∧ (batch.foldl (tickStep cfg now) (stats, st)).1.waitingNoAccount =
          stats.waitingNoAccount + batch.length := by
  intro batch
  induction batch with
  | nil =>
    intro stats st _ _ _ _ _
    exact ⟨rfl, rfl, by simp⟩
  | cons t rest ih =>
    intro stats st hpol hne hempty hpress hbatch
    have ht : t.queueName = cfg.uploadQueueName := hbatch t (by simp)
    have hq : (t.queueName == "") = false :=
      beq_eq_false_iff_ne.mpr (by rw [ht]; exact hne)
    have hpol' : (cfg.noAccountPolicy == "fail") = false :=
      beq_eq_false_iff_ne.mpr hpol
    have hstep : tickStep cfg now (stats, st) t =
        ({ stats with waitingNoAccount := stats.waitingNoAccount + 1 },
         { st with accounts := st.accounts.map (reactivateRow now) }) := by
      rw [tickStep_upload_noaccount cfg now stats st t ht hne hpress hempty,
        if_neg (by simp [hpol'])]
    rw [List.foldl_cons, hstep]
    have hih := ih { stats with waitingNoAccount := stats.waitingNoAccount + 1 }
      { st with accounts := st.accounts.map (reactivateRow now) }
      hpol hne
      (by show ((st.accounts.map (reactivateRow now)).map
            (reactivateRow now)).filter (isCandidate now) = []
          rw [reactivated_stable]; exact hempty)
      hpress (fun t' ht' => hbatch t' (by simp [ht']))
    refine ⟨hih.1, hih.2.1, ?_⟩
    rw [hih.2.2]
    simp only [List.length_cons]
    omega

/-! ### Claim C5 — retry / DLQ propagation in the stage services -/

/-- C5 counterexample: a download task with its retry budget exhausted
fails; the download stage pushes a DLQ payload that carries
`error_message` but no `failed_at` key, contradicting the claim that the
DLQ payload includes `failed_at`. -/
theorem C5_counterexample :
    ∃ p, (mediaLoaderHandleProcessingError exhaustedDownloadTask
            "DownloadError: boom").dlqPushed = some p
      ∧ p.lookup "error_message" = some (.s "DownloadError: boom")
      ∧ p.lookup "failed_at" = none := by
  refine ⟨_, rfl, ?_, ?_⟩ <;> decide

/-- C5 (amended): on a transient failure with `retries + 1 ≤ max_retries`
the task row is written `state=pending` with the incremented retry count
and the error message, the video is set back to `discovered` (download
stage) or `downloaded` (upload stage), and the payload with the
incremented counter is re-pushed to the stage queue; otherwise the task is
written `failed`, the video `failed`, and a payload including
`error_message` is pushed to the stage's DLQ — the upload stage's DLQ
payload also includes `failed_at`, while the download stage's DLQ payload
omits it. -/
theorem C5_failure_propagation_amended (task : Task) (errorMsg failedAt : String) :
    (task.retries + 1 ≤ task.maxRetries →
      mediaLoaderHandleProcessingError task errorMsg =
        { taskWrite := .setRetry (task.retries + 1) .pending errorMsg
          videoStatus := .discovered
          retryPushed := some
            [("task_id", .s (toString task.id)),
             ("video_id", .s (toString task.videoId)),
             ("queue_name", .s (if task.queueName == "" then "pixav:download"
                                else task.queueName)),
             ("retries", .n (task.retries + 1)),
             ("max_retries", .n task.maxRetries)]
          dlqPushed := none })
    ∧ (¬ task.retries + 1 ≤ task.maxRetries →
        (mediaLoaderHandleProcessingError task errorMsg).taskWrite =
            .updateTaskState .failed errorMsg
        ∧ (mediaLoaderHandleProcessingError task errorMsg).videoStatus = .failed
        ∧ ∃ p, (mediaLoaderHandleProcessingError task errorMsg).dlqPushed = some p
            ∧ p.lookup "error_message" = some (.s errorMsg)
            ∧ p.lookup "failed_at" = none)
    ∧ (isRetryableFailure (task.errorMessage.getD "upload stage failed") = true →
        task.retries + 1 ≤ task.maxRetries →
        pixelInjectorPersistFailure task failedAt =
          { taskWrite := .setRetry (task.retries + 1) .pending
              (task.errorMessage.getD "upload stage failed")
            videoStatus := .downloaded
            retryPushed := some (buildRetryPayload task (task.retries + 1))
            dlqPushed := none })
    ∧ ((isRetryableFailure (task.errorMessage.getD "upload stage failed") = false
          ∨ ¬ task.retries + 1 ≤ task.maxRetries) →
        (pixelInjectorPersistFailure task failedAt).taskWrite =
            .updateTaskState .failed (task.errorMessage.getD "upload stage failed")
        ∧ (pixelInjectorPersistFailure task failedAt).videoStatus = .failed
        ∧ ∃ p, (pixelInjectorPersistFailure task failedAt).dlqPushed = some p
            ∧ p.lookup "error_message" =
                some (.s (task.errorMessage.getD "upload stage failed"))
            ∧ p.lookup "failed_at" = some (.s failedAt)) := by
  refine ⟨?_, ?_, ?_, ?_⟩
  · intro h
    simp [mediaLoaderHandleProcessingError, h]
  · intro h
    refine ⟨?_, ?_, ?_⟩
    · simp [mediaLoaderHandleProcessingError, h]
    · simp [mediaLoaderHandleProcessingError, h]
    · have hout : (mediaLoaderHandleProcessingError task errorMsg).dlqPushed =
          some [("task_id", .s (toString task.id)),
                ("video_id", .s (toString task.videoId)),
                ("stage", .s "download"),
                ("attempts", .n task.retries),
                ("max_retries", .n task.maxRetries),
                ("error_message", .s errorMsg)] := by
        simp [mediaLoaderHandleProcessingError, h]
      exact ⟨_, hout, by simp [List.lookup], by simp [List.lookup]⟩
  · intro hr h
    simp [pixelInjectorPersistFailure, hr, h]
  · intro hcase
    have hcond : (isRetryableFailure (task.errorMessage.getD "upload stage failed")
        && decide (task.retries + 1 ≤ task.maxRetries)) = false := by
      rcases hcase with h | h <;> simp [h]
    refine ⟨?_, ?_, ?_⟩
    · simp [pixelInjectorPersistFailure, hcond]
    · simp [pixelInjectorPersistFailure, hcond]
    · have hout : (pixelInjectorPersistFailure task failedAt).dlqPushed =
          some (buildDlqPayload task (task.errorMessage.getD "upload stage failed")
            failedAt) := by
        simp [pixelInjectorPersistFailure, hcond]
      exact ⟨_, hout,
        by cases task.accountId <;> simp [buildDlqPayload, List.lookup],
        by cases task.accountId <;> simp [buildDlqPayload, List.lookup]⟩

/-- C5 witness: the non-retryable upload failure of
`nonRetryableUploadTask` at a concrete `failed_at` string goes to the DLQ
with both `error_message` and `failed_at`. -/
theorem C5_failure_propagation_amended_witness :
    (pixelInjectorPersistFailure nonRetryableUploadTask
        "2026-01-01T00:00:00+00:00").taskWrite =
      .updateTaskState .failed "video local_path is missing"
    ∧ (pixelInjectorPersistFailure nonRetryableUploadTask
        "2026-01-01T00:00:00+00:00").videoStatus = .failed
    ∧ ∃ p, (pixelInjectorPersistFailure nonRetryableUploadTask
              "2026-01-01T00:00:00+00:00").dlqPushed = some p
        ∧ p.lookup "error_message" = some (.s "video local_path is missing")
        ∧ p.lookup "failed_at" = some (.s "2026-01-01T00:00:00+00:00") :=
  (C5_failure_propagation_amended nonRetryableUploadTask
      "ignored" "2026-01-01T00:00:00+00:00").2.2.2 (Or.inl (by decide))

/-! ### Claim C6 — no-account policy in the tick -/

/-- C6 counterexample: six upload-bound pending tasks, an empty account
pool and `no_account_policy = "fail"`.  The claim requires all upload-bound
pending tasks to be failed within one tick, but the tick only processes the
first `batch_size = 5` pending tasks: one task is still pending
afterwards. -/
theorem C6_counterexample :
    (tick orchCfgFail 0 sixUploadState).1.failedNoAccount = 5
    ∧ countByState .pending (tick orchCfgFail 0 sixUploadState).2.tasks = 1 := by
  constructor
  · decide
  · decide

/-- C6 (amended): when every pending task in the tick's batch is
upload-bound, the account pool has no candidate even after reactivation,
and the upload queue is below the critical threshold: under
`no_account_policy = wait` the task table is untouched (so the pending
count is unchanged) and `waiting_no_account` counts the whole batch; under
`fail` every task of the batch — i.e. every upload-bound pending task
among the first `batch_size` pending tasks by `created_at`, not all
upload-bound pending tasks — is transitioned to `failed` with the
scheduler's explanatory message, and `failed_no_account` counts the
batch. -/
theorem C6_no_account_policy_amended (cfg : OrchConfig) (now : Int) (st : OrchState)
    (hempty : (st.accounts.map (reactivateRow now)).filter (isCandidate now) = [])
    (hne : cfg.uploadQueueName ≠ "")
    (hpress : checkPressure cfg.criticalThreshold st.queues cfg.uploadQueueName = true)
    (hbatch : ∀ t ∈ listPending cfg.batchSize (gcCleanup now cfg.orphanMaxAge st.tasks).1,
        t.queueName = cfg.uploadQueueName) :
    (cfg.noAccountPolicy ≠ "fail" →
      (tick cfg now st).2.tasks = (gcCleanup now cfg.orphanMaxAge st.tasks).1
      ∧ countByState .pending (tick cfg now st).2.tasks = countByState .pending st.tasks
      ∧ (tick cfg now st).1.waitingNoAccount =
          (listPending cfg.batchSize (gcCleanup now cfg.orphanMaxAge st.tasks).1).length)
    ∧ (cfg.noAccountPolicy = "fail" →
      (∀ t ∈ listPending cfg.batchSize (gcCleanup now cfg.orphanMaxAge st.tasks).1,
        ∀ row ∈ (tick cfg now st).2.tasks, row.id = t.id →
          row.state = .failed ∧ row.errorMessage = some noActiveAccountsMsg)
      ∧ (tick cfg now st).1.failedNoAccount =
          (listPending cfg.batchSize (gcCleanup now cfg.orphanMaxAge st.tasks).1).length) := by
  have hdef : tick cfg now st =
      (if countByState .pending (gcCleanup now cfg.orphanMaxAge st.tasks).1 == 0 then
        ({ dispatched := 0, skippedPressure := 0,
           orphansCleaned := (gcCleanup now cfg.orphanMaxAge st.tasks).2,
           waitingNoAccount := 0, failedNoAccount := 0 },
         { st with tasks := (gcCleanup now cfg.orphanMaxAge st.tasks).1 })
      else
        (listPending cfg.batchSize (gcCleanup now cfg.orphanMaxAge st.tasks).1).foldl
          (tickStep cfg now)
          ({ dispatched := 0, skippedPressure := 0,
             orphansCleaned := (gcCleanup now cfg.orphanMaxAge st.tasks).2,
             waitingNoAccount := 0, failedNoAccount := 0 },
           { st with tasks := (gcCleanup now cfg.orphanMaxAge st.tasks).1 })) := rfl
  by_cases hzero : countByState .pending (gcCleanup now cfg.orphanMaxAge st.tasks).1 = 0
  · have hb : (countByState .pending (gcCleanup now cfg.orphanMaxAge st.tasks).1 == 0) = true := by
      rw [hzero]; rfl
    have hnil : listPending cfg.batchSize (gcCleanup now cfg.orphanMaxAge st.tasks).1 = [] :=
      listPending_nil_of_no_pending hzero
    rw [hdef, if_pos hb]
    constructor
    · intro _
      exact ⟨rfl, countByState_gc now cfg.orphanMaxAge st.tasks, by rw [hnil]; rfl⟩
    · intro _
      constructor
      · intro t ht
        rw [hnil] at ht
        exact absurd ht (List.not_mem_nil t)
      · rw [hnil]; rfl
  · have hb : (countByState .pending (gcCleanup now cfg.orphanMaxAge st.tasks).1 == 0) = false := by
      exact beq_eq_false_iff_ne.mpr hzero
    rw [hdef, if_neg (by simp [hb])]
    constructor
    · intro hpol
      have hw := tickFold_wait cfg now
        (listPending cfg.batchSize (gcCleanup now cfg.orphanMaxAge st.tasks).1)
        { dispatched := 0, skippedPressure := 0,
          orphansCleaned := (gcCleanup now cfg.orphanMaxAge st.tasks).2,
          waitingNoAccount := 0, failedNoAccount := 0 }
        { st with tasks := (gcCleanup now cfg.orphanMaxAge st.tasks).1 }
        hpol hne hempty hpress hbatch
      refine ⟨hw.1, ?_, ?_⟩
      · rw [hw.1]
        exact countByState_gc now cfg.orphanMaxAge st.tasks
      · rw [hw.2.2]
        simp
    · intro hpol
      have hf := tickFold_fail cfg now
        (listPending cfg.batchSize (gcCleanup now cfg.orphanMaxAge st.tasks).1)
        { dispatched := 0, skippedPressure := 0,
          orphansCleaned := (gcCleanup now cfg.orphanMaxAge st.tasks).2,
          waitingNoAccount := 0, failedNoAccount := 0 }
        { st with tasks := (gcCleanup now cfg.orphanMaxAge st.tasks).1 }
        hpol hne hempty hpress hbatch
      refine ⟨?_, ?_⟩
      · intro t ht row hrow hid
        exact hf.2.2 t.id (Or.inl ⟨t, ht, rfl⟩) row hrow hid
      · rw [hf.2.1]
        simp

/-- C6 witness: the wait branch of the amended theorem at a concrete
single-task state with an empty account pool. -/
theorem C6_no_account_policy_amended_witness :
    (tick orchCfgWait 0 singleUploadState).2.tasks =
      (gcCleanup 0 orchCfgWait.orphanMaxAge singleUploadState.tasks).1
    ∧ countByState .pending (tick orchCfgWait 0 singleUploadState).2.tasks =
        countByState .pending singleUploadState.tasks
    ∧ (tick orchCfgWait 0 singleUploadState).1.waitingNoAccount =
        (listPending orchCfgWait.batchSize
          (gcCleanup 0 orchCfgWait.orphanMaxAge singleUploadState.tasks).1).length :=
  (C6_no_account_policy_amended orchCfgWait 0 singleUploadState (by decide) (by decide)
    (by decide) (by decide)).1 (by decide)

/-! ### Claim C7 — backpressure gate in the tick -/

/-- C7 counterexample: one upload-bound pending task, upload-queue depth
0 with `critical_threshold = 1` (depth exactly `critical − 1`), wait
policy, empty account pool.  The claim requires the task to be dispatched,
but the account gate intervenes: nothing is dispatched and the task stays
pending. -/
theorem C7_counterexample :
    (singleUploadState.queues.lookup "pixav:upload").map List.length =
      some (orchCfgWaitCrit1.criticalThreshold - 1)
    ∧ (tick orchCfgWaitCrit1 0 singleUploadState).1.dispatched = 0
    ∧ countByState .pending (tick orchCfgWaitCrit1 0 singleUploadState).2.tasks = 1 := by
  refine ⟨?_, ?_, ?_⟩
  · decide
  · decide
  · decide

/-- C7 (amended): for a pending task considered in a tick whose target
queue is registered with depth `≥ critical_threshold`, the task is skipped
(state untouched, `skipped_pressure` incremented); with depth
`< critical_threshold` (including at `critical_threshold − 1` and at or
above the warn threshold, which only logs) the task passes the gate and —
when it is not upload-bound, so no account gate applies — is dispatched:
its payload is pushed and its state advances to `downloading`. -/
theorem C7_backpressure_amended (cfg : OrchConfig) (now : Int) (stats : TickStats)
    (st : OrchState) (task : Task) (items : List Payload)
    (hlookup : st.queues.lookup
        (if task.queueName == "" then cfg.downloadQueueName else task.queueName) =
      some items) :
    (items.length ≥ cfg.criticalThreshold →
      tickStep cfg now (stats, st) task =
        ({ stats with skippedPressure := stats.skippedPressure + 1 }, st))
    ∧ (items.length < cfg.criticalThreshold →
       (if task.queueName == "" then cfg.downloadQueueName else task.queueName) ≠
          cfg.uploadQueueName →
      tickStep cfg now (stats, st) task =
        ({ stats with dispatched := stats.dispatched + 1 },
         { st with
            tasks := updateState now task.id .downloading none st.tasks,
            queues := queuePush st.queues
              (if task.queueName == "" then cfg.downloadQueueName else task.queueName)
              (dispatchPayload st.tasks task.id
                (if task.queueName == "" then cfg.downloadQueueName
                 else task.queueName)) })) := by
  constructor
  · intro hge
    have hcp : checkPressure cfg.criticalThreshold st.queues
        (if task.queueName == "" then cfg.downloadQueueName else task.queueName) = false := by
      simp only [checkPressure, hlookup]
      simp only [decide_eq_false_iff_not, not_lt]
      exact hge
    simp only [tickStep]
    rw [if_pos hcp]
  · intro hlt hneq
    have hcp : checkPressure cfg.criticalThreshold st.queues
        (if task.queueName == "" then cfg.downloadQueueName else task.queueName) = true := by
      simp only [checkPressure, hlookup]
      simpa using hlt
    have hqu : (((if task.queueName == "" then cfg.downloadQueueName else task.queueName) ==
        cfg.uploadQueueName) : Bool) = false := beq_eq_false_iff_ne.mpr hneq
    simp only [tickStep]
    rw [if_neg (by rw [hcp]; simp)]
    simp only [hqu, Bool.false_eq_true, if_false]
    simp only [dispatcherDispatch, hlookup]

/-- C7 witness: the skip branch at upload-queue depth 1 with
`critical_threshold = 1`, and the dispatch branch for a download-bound
task on an empty download queue. -/
theorem C7_backpressure_amended_witness :
    tickStep orchCfgWaitCrit1 0 (zeroStats, busyUploadState) (uploadPendingTask 1) =
      ({ zeroStats with skippedPressure := 1 }, busyUploadState)
    ∧ tickStep orchCfgWait 0 (zeroStats, singleDownloadState) (downloadPendingTask 1) =
      ({ zeroStats with dispatched := 1 },
       { singleDownloadState with
          tasks := updateState 0 1 .downloading none singleDownloadState.tasks,
          queues := queuePush singleDownloadState.queues "pixav:download"
            (dispatchPayload singleDownloadState.tasks 1 "pixav:download") }) :=
  ⟨(C7_backpressure_amended orchCfgWaitCrit1 0 zeroStats busyUploadState
      (uploadPendingTask 1) [[]] (by decide)).1 (by decide),
   (C7_backpressure_amended orchCfgWait 0 zeroStats singleDownloadState
      (downloadPendingTask 1) [] (by decide)).2 (by decide) (by decide)⟩

/-! ### Claim C9 — resolver cache and persistence -/

theorem updateVideoStatus_id_status {now : Int} {vid : Nat} {status : VideoStatus}
    {rows : List VideoRow} :
    ∀ r ∈ updateVideoStatus now vid status rows, r.id = vid → r.status = status := by
  intro r hr hid
  rcases List.mem_map.mp hr with ⟨r₀, hr₀, hfr⟩
  by_cases h : r₀.id = vid
  · rw [← hfr]; simp [h]
  · rw [← hfr] at hid
    simp [h] at hid

theorem setVideoCdn_id {now : Int} {vid : Nat} {cdn : String}
    {rows : List VideoRow} :
    ∀ r ∈ setVideoCdn now vid cdn rows, r.id = vid →
      r.cdnUrl = some cdn ∧ r.status = .available := by
  intro r hr hid
  rcases List.mem_map.mp hr with ⟨r₀, hr₀, hfr⟩
  by_cases h : r₀.id = vid
  · rw [← hfr]; simp [h]
  · rw [← hfr] at hid
    simp [h] at hid

/-- C9: for every video id whose cached CDN URL is present (and non-empty,
i.e. a URL — the code treats an empty cached string as a miss, and the
system only ever caches non-empty URLs), `resolve` returns the cached URL
with zero external-resolver calls and an unchanged state; and on a cache
miss that goes through the external resolver, the obtained `cdn_url` is
persisted on the video row (status `available`) and cached before the URL
is returned, with exactly one external call. -/
theorem C9_resolve_cache_and_persist (cfg : ResolveConfig)
    (resolver : String → Option String) (now : Int) (st : ResolveState) (vid : Nat) :
    (∀ u, st.cache.lookup vid = some u → u ≠ "" →
      resolveCdn cfg resolver now st vid = (.ok (u, .cache), st, 0))
    ∧ (∀ row s cdn,
        st.cache.lookup vid = none →
        st.videos.find? (fun r => r.id == vid) = some row →
        row.cdnUrl = none →
        row.shareUrl = some s →
        s ≠ "" →
        charsPrefix cfg.localScheme.data s.data = false →
        resolver s = some cdn →
        resolveCdn cfg resolver now st vid =
          (.ok (cdn, .resolved),
           { st with videos := setVideoCdn now vid cdn st.videos,
                     cache := cacheSet st.cache vid cdn }, 1)
        ∧ (cacheSet st.cache vid cdn).lookup vid = some cdn
        ∧ (∀ r ∈ setVideoCdn now vid cdn st.videos, r.id = vid →
            r.cdnUrl = some cdn ∧ r.status = .available)) := by
  constructor
  · intro u hu hne
    simp only [resolveCdn, hu]
    rw [if_neg hne]
  · intro row s cdn hcache hfind hcdn hshare hs hpref hres
    refine ⟨?_, ?_, setVideoCdn_id⟩
    · simp only [resolveCdn, hcache, hfind, hcdn, hshare]
      rw [if_neg hs, if_neg (by simp [hpref])]
      simp only [hres]
    · simp [cacheSet, List.lookup]

/-- C9 witness: the theorem at the concrete state `sampleResolveState` —
a warm-cache hit for video 7, and the external-resolver path for video 8
with `sampleResolver`. -/
theorem C9_resolve_cache_and_persist_witness :
    resolveCdn sampleResolveConfig sampleResolver 100 sampleResolveState 7 =
      (.ok ("https://cdn/seven", .cache), sampleResolveState, 0)
    ∧ (resolveCdn sampleResolveConfig sampleResolver 100 sampleResolveState 8 =
        (.ok ("https://cdn/eight", .resolved),
         { sampleResolveState with
            videos := setVideoCdn 100 8 "https://cdn/eight" sampleResolveState.videos,
            cache := cacheSet sampleResolveState.cache 8 "https://cdn/eight" }, 1)
       ∧ (cacheSet sampleResolveState.cache 8 "https://cdn/eight").lookup 8 =
           some "https://cdn/eight"
       ∧ (∀ r ∈ setVideoCdn 100 8 "https://cdn/eight" sampleResolveState.videos,
            r.id = 8 → r.cdnUrl = some "https://cdn/eight" ∧ r.status = .available)) :=
  ⟨(C9_resolve_cache_and_persist sampleResolveConfig sampleResolver 100
      sampleResolveState 7).1 "https://cdn/seven" (by decide) (by decide),
   (C9_resolve_cache_and_persist sampleResolveConfig sampleResolver 100
      sampleResolveState 8).2 unresolvedVideoRow "https://share/x" "https://cdn/eight"
      (by decide) (by decide) (by decide) (by decide) (by decide) (by decide) (by decide)⟩

/-! ### Claim C10 — delayed DLQ replay grants a fresh retry budget -/

theorem replayStep_queue (queueName : String) (defaultMaxRetries : Nat) (now : Int)
    (st : ReplayState) (entry : DlqScheduleEntry) :
    ∀ p ∈ (replayStep queueName defaultMaxRetries now st entry).1.retryQueue,
      p ∈ st.retryQueue ∨
        (p.lookup "retries" = some (.n 0)
         ∧ p.lookup "max_retries" = some (.n defaultMaxRetries)
         ∧ p.lookup "local_path" = none) := by
  intro p hp
  cases hraw : entry.raw with
  | none => left; simpa [replayStep, hraw] using hp
  | some payload =>
    cases htid : pvalStr (payload.lookup "task_id") with
    | none => left; simpa [replayStep, hraw, htid] using hp
    | some tid =>
      cases hvid : pvalStr (payload.lookup "video_id") with
      | none => left; simpa [replayStep, hraw, htid, hvid] using hp
      | some vidS =>
        have hq : (replayStep queueName defaultMaxRetries now st entry).1.retryQueue =
            st.retryQueue ++
              [[("task_id", .s tid), ("video_id", .s vidS),
                ("queue_name", .s queueName), ("retries", .n 0),
                ("max_retries", .n defaultMaxRetries)]
               ++ (match pvalStr (payload.lookup "account_id") with
                   | some a => [("account_id", .s a)]
                   | none => [])] := by
          simp [replayStep, hraw, htid, hvid]
        rw [hq] at hp
        rcases List.mem_append.mp hp with h | h
        · exact Or.inl h
        · right
          have hpe := List.mem_singleton.mp h
          subst hpe
          cases hacc : pvalStr (payload.lookup "account_id") <;>
            simp [hacc, List.lookup]

theorem replayFold_budget (queueName : String) (defaultMaxRetries : Nat) (now : Int) :
    ∀ (l : List DlqScheduleEntry) (acc : ReplayState × Nat) (base : List Payload),
      (∀ p ∈ acc.1.retryQueue, p ∈ base ∨
        (p.lookup "retries" = some (.n 0)
         ∧ p.lookup "max_retries" = some (.n defaultMaxRetries)
         ∧ p.lookup "local_path" = none)) →
      ∀ p ∈ (l.foldl
          (fun acc e =>
            let r := replayStep queueName defaultMaxRetries now acc.1 e
            (r.1, acc.2 + r.2)) acc).1.retryQueue,
        p ∈ base ∨
          (p.lookup "retries" = some (.n 0)
           ∧ p.lookup "max_retries" = some (.n defaultMaxRetries)
           ∧ p.lookup "local_path" = none) := by
  intro l
  induction l with
  | nil => intro acc base hacc; exact hacc
  | cons e rest ih =>
    intro acc base hacc
    refine ih _ base ?_
    intro p hp
    rcases replayStep_queue queueName defaultMaxRetries now acc.1 e p hp with h | h
    · exact hacc p h
    · exact Or.inr h

/-- C10: every due entry replayed from the delayed DLQ set pushes a payload
carrying `retries = 0`, `max_retries = default_max_retries` — regardless
of the attempt counters in the entry — and no `local_path`; the task row
is reset to `pending` and the video set back to `downloaded`; and across a
whole replay pass every payload newly on the queue carries that fresh
budget. -/
theorem C10_dlq_replay_fresh_budget (queueName : String) (defaultMaxRetries : Nat)
    (now : Int) :
    (∀ (st : ReplayState) (entry : DlqScheduleEntry) (payload : Payload)
        (tid vidS : String),
      entry.raw = some payload →
      pvalStr (payload.lookup "task_id") = some tid →
      pvalStr (payload.lookup "video_id") = some vidS →
      ∃ p, (replayStep queueName defaultMaxRetries now st entry).1.retryQueue =
            st.retryQueue ++ [p]
        ∧ p.lookup "retries" = some (.n 0)
        ∧ p.lookup "max_retries" = some (.n defaultMaxRetries)
        ∧ p.lookup "local_path" = none
        ∧ (∀ t, parseId tid = some t →
            ∀ row ∈ (replayStep queueName defaultMaxRetries now st entry).1.tasks,
              row.id = t → row.state = .pending)
        ∧ (∀ v, parseId vidS = some v →
            ∀ row ∈ (replayStep queueName defaultMaxRetries now st entry).1.videos,
              row.id = v → row.status = .downloaded))
    ∧ (∀ (maxItems : Nat) (st : ReplayState),
        ∀ p ∈ (replayDueDlq queueName defaultMaxRetries now maxItems st).1.retryQueue,
          p ∈ st.retryQueue ∨
            (p.lookup "retries" = some (.n 0)
             ∧ p.lookup "max_retries" = some (.n defaultMaxRetries)
             ∧ p.lookup "local_path" = none)) := by
  constructor
  · intro st entry payload tid vidS hraw htid hvid
    have hq : (replayStep queueName defaultMaxRetries now st entry).1.retryQueue =
        st.retryQueue ++
          [[("task_id", .s tid), ("video_id", .s vidS),
            ("queue_name", .s queueName), ("retries", .n 0),
            ("max_retries", .n defaultMaxRetries)]
           ++ (match pvalStr (payload.lookup "account_id") with
               | some a => [("account_id", .s a)]
               | none => [])] := by
      simp [replayStep, hraw, htid, hvid]
    refine ⟨_, hq, ?_, ?_, ?_, ?_, ?_⟩
    · cases hacc : pvalStr (payload.lookup "account_id") <;> simp [hacc, List.lookup]
    · cases hacc : pvalStr (payload.lookup "account_id") <;> simp [hacc, List.lookup]
    · cases hacc : pvalStr (payload.lookup "account_id") <;> simp [hacc, List.lookup]
    · intro t hpt row hrow hid
      have htasks : (replayStep queueName defaultMaxRetries now st entry).1.tasks =
          updateState now t .pending
            (some ("replayed from dlq ("
              ++ toString (pvalNat (payload.lookup "dlq_replays")) ++ ")")) st.tasks := by
        simp [replayStep, hraw, htid, hvid, hpt]
      rw [htasks] at hrow
      exact (updateState_id_state row hrow hid).1
    · intro v hpv row hrow hid
      have hvids : (replayStep queueName defaultMaxRetries now st entry).1.videos =
          updateVideoStatus now v .downloaded st.videos := by
        simp [replayStep, hraw, htid, hvid, hpv]
      rw [hvids] at hrow
      exact updateVideoStatus_id_status row hrow hid
  · intro maxItems st
    exact replayFold_budget queueName defaultMaxRetries now
      (takeDue now maxItems st.schedule)
      ({ st with schedule := removeDue now maxItems st.schedule }, 0)
      st.retryQueue (fun p hp => Or.inl hp)

/-- C10 witness: the per-entry part of the theorem at `sampleReplayState`
and `sampleDlqEntry` (whose own `attempts`/`max_retries` are 2/2 and
`dlq_replays` is 1), with `default_max_retries = 10`. -/
theorem C10_dlq_replay_fresh_budget_witness :
    ∃ p, (replayStep "pixav:upload" 10 100 sampleReplayState sampleDlqEntry).1.retryQueue =
          sampleReplayState.retryQueue ++ [p]
      ∧ p.lookup "retries" = some (.n 0)
      ∧ p.lookup "max_retries" = some (.n 10)
      ∧ p.lookup "local_path" = none
      ∧ (∀ t, parseId "11" = some t →
          ∀ row ∈ (replayStep "pixav:upload" 10 100 sampleReplayState
              sampleDlqEntry).1.tasks,
            row.id = t → row.state = .pending)
      ∧ (∀ v, parseId "12" = some v →
          ∀ row ∈ (replayStep "pixav:upload" 10 100 sampleReplayState
              sampleDlqEntry).1.videos,
            row.id = v → row.status = .downloaded) :=
  (C10_dlq_replay_fresh_budget "pixav:upload" 10 100).1 sampleReplayState sampleDlqEntry
    [("task_id", .s "11"), ("video_id", .s "12"),
     ("queue_name", .s "pixav:upload"), ("stage", .s "upload"),
     ("attempts", .n 2), ("max_retries", .n 2),
     ("error_message", .s "verify timeout"),
     ("failed_at", .s "2026-01-01T00:00:00+00:00"),
     ("dlq_replays", .n 1)] "11" "12" rfl (by decide) (by decide)

end PixAV
